import Mathlib

/-!
# Verification of the craigslist_mcp scraper core

A shallow embedding of `src/craigslist_mcp/scraper.py`: the URL builder,
the search-result extractor (structured cascade plus link-pattern fallback),
the listing-detail extractor (including the attribute label/value pairing
loop and the map-coordinate handling), the search orchestration loop with
its validation and error handling, and the static reference tables.

HTML documents are represented by the outcome of the CSS-selector queries
the Python code performs (BeautifulSoup itself is an external library, out
of scope): a document model records, for each selector the code uses, the
text/attribute content of the matching element(s).  All text fields hold
the value of the corresponding `get_text(...)` call.  Every function below
is translated line-by-line from `scraper.py`.
-/

namespace Craigslist

set_option maxRecDepth 20000

/-! ## Python string primitives -/

/-- Python `str.lower()`; the program's data is ASCII, where
`Char.toLower` agrees with Python. -/
def pyLower (s : String) : String := ⟨s.toList.map Char.toLower⟩

/-- Strip characters satisfying `p` from both ends of a string
(Python `str.strip(chars)`). -/
def stripBoth (p : Char → Bool) (s : String) : String :=
  ⟨((s.toList.dropWhile p).reverse.dropWhile p).reverse⟩

/-- Python `str.strip()` (whitespace on both ends). -/
def pyStrip (s : String) : String := stripBoth Char.isWhitespace s

/-- Python `str.rstrip(":")` (trailing colons removed). -/
def rstripColon (s : String) : String :=
  ⟨(s.toList.reverse.dropWhile (· == ':')).reverse⟩

/-- Python `str.strip("() ")`, used on neighborhood text. -/
def stripParenSpace (s : String) : String :=
  stripBoth (fun c => c == '(' || c == ')' || c == ' ') s

/-- Is `needle` a contiguous sublist of the second argument? -/
def listIsSub (needle : List Char) : List Char → Bool
  | [] => needle.isEmpty
  | c :: rest => needle.isPrefixOf (c :: rest) || listIsSub needle rest

/-- Python substring containment `needle in hay`. -/
def containsSub (needle hay : String) : Bool := listIsSub needle.toList hay.toList

/-- `href.startswith("http")` (list-level so that it kernel-reduces). -/
def startsWithHttp (s : String) : Bool := "http".toList.isPrefixOf s.toList

/-- Truthiness of an optional string, as Python sees `None` and `""`. -/
def pyTruthy (o : Option String) : Bool := !(o.getD "").isEmpty

/-- Python `a or b` over optional strings: `b` unless `a` is truthy. -/
def pyOrS (a b : Option String) : Option String := if pyTruthy a then a else b

/-- Replace every occurrence of the pattern `p0 :: ps` (Python
`str.replace`).  The `Nat` argument is fuel; each step consumes at least
one list element and one unit of fuel, so starting the fuel at the list
length makes the exhaustion branch unreachable (structural recursion is
used so that the function reduces inside the kernel). -/
def replaceListAux (p0 : Char) (ps rep : List Char) : Nat → List Char → List Char
  | _, [] => []
  | 0, l => l
  | fuel + 1, c :: rest =>
    if (p0 :: ps).isPrefixOf (c :: rest) then
      rep ++ replaceListAux p0 ps rep fuel (rest.drop ps.length)
    else
      c :: replaceListAux p0 ps rep fuel rest

/-- Python `s.replace(pat, rep)`; with an empty pattern and empty
replacement (the only way the program can hit that corner) Python
returns `s` unchanged. -/
def pyReplace (s pat rep : String) : String :=
  match pat.toList with
  | [] => s
  | p :: ps => ⟨replaceListAux p ps rep.toList s.toList.length s.toList⟩

/-! ## The dollar-amount pattern `\$[\d,]+`

`re.search(r"\$[\d,]+", t)` finds the leftmost `$` that is followed by at
least one digit or comma; the match then extends over the maximal run of
digits/commas (the pattern is greedy and nothing after it constrains the
run). We return the character-index range of the match. -/

def isDollarBody (c : Char) : Bool := c.isDigit || c == ','

def findDollarAux : List Char → Nat → Option (Nat × Nat)
  | [], _ => none
  | c :: rest, i =>
    if c == '$' then
      let run := rest.takeWhile isDollarBody
      if run.length = 0 then findDollarAux rest (i + 1)
      else some (i, i + 1 + run.length)
    else findDollarAux rest (i + 1)

def findDollar (s : String) : Option (Nat × Nat) := findDollarAux s.toList 0

/-- The substring of `s` between character positions `a` (inclusive) and
`b` (exclusive). -/
def substrRange (s : String) (a b : Nat) : String := ⟨(s.toList.take b).drop a⟩

/-! ## Python `float(str)` acceptance

`float(lat)` raises `ValueError` unless the (whitespace-stripped) string
is a signed decimal literal, optionally with fraction and exponent, or one
of the special words `inf` / `infinity` / `nan`.  Only acceptance matters
to the program (the numeric value is never inspected), so coordinates are
carried as their source strings.  PEP-515 underscore groups are not
modelled; none of the claims depend on them. -/

def allDigits (cs : List Char) : Bool := cs.all Char.isDigit

def mantissaOk (cs : List Char) : Bool :=
  let ip := cs.takeWhile Char.isDigit
  match cs.drop ip.length with
  | [] => !ip.isEmpty
  | '.' :: fr => (!ip.isEmpty || !fr.isEmpty) && allDigits fr
  | _ => false

def exponentOk (cs : List Char) : Bool :=
  match cs with
  | [] => true
  | e :: r =>
    (e == 'e' || e == 'E') &&
      (let r2 := match r with
        | '+' :: t => t
        | '-' :: t => t
        | t => t
       !r2.isEmpty && allDigits r2)

def pyFloatParses (s : String) : Bool :=
  let cs := (pyStrip s).toList
  let cs := match cs with
    | '+' :: t => t
    | '-' :: t => t
    | t => t
  let low := cs.map Char.toLower
  if low == "inf".toList || low == "infinity".toList || low == "nan".toList then
    true
  else
    let m := cs.takeWhile (fun c => !(c == 'e' || c == 'E'))
    mantissaOk m && exponentOk (cs.drop m.length)

/-! ## Association-list primitives

Python `dict`s are modelled as ordered association lists: membership is
first-match lookup; assignment (`dinsert`) keeps the first-insertion
position of an existing key and overwrites its value, matching CPython
dict semantics. -/

def alookup (t : List (String × String)) (k : String) : Option String :=
  (t.find? (fun kv => kv.1 == k)).map (fun kv => kv.2)

def firstSome (a b : Option String) : Option String :=
  match a with
  | some x => some x
  | none => b

def dinsert (m : List (String × String)) (k v : String) : List (String × String) :=
  if m.any (fun kv => kv.1 == k) then
    m.map (fun kv => if kv.1 == k then (k, v) else kv)
  else
    m ++ [(k, v)]

/-! ## Static reference tables

`LOCATIONS` transcribes the Python dict literal.  That literal repeats the
keys `"lafayette"` and `"columbus"`; CPython keeps the first insertion
position with the last assigned value, so the list below has 441 entries
with `"columbus"` mapped to `"Columbus, OH"` and `"lafayette"` to
`"Lafayette, LA"` at their first positions. -/

def LOCATIONS : List (String × String) := [
  ("auburn", "Auburn, AL"),
  ("bham", "Birmingham, AL"),
  ("dothan", "Dothan, AL"),
  ("shoals", "Florence / Muscle Shoals, AL"),
  ("gadsden", "Gadsden-Anniston, AL"),
  ("huntsville", "Huntsville / Decatur, AL"),
  ("mobile", "Mobile, AL"),
  ("montgomery", "Montgomery, AL"),
  ("tuscaloosa", "Tuscaloosa, AL"),
  ("anchorage", "Anchorage / Mat-Su, AK"),
  ("fairbanks", "Fairbanks, AK"),
  ("kenai", "Kenai Peninsula, AK"),
  ("juneau", "Juneau, AK"),
  ("flagstaff", "Flagstaff / Sedona, AZ"),
  ("mohave", "Mohave County, AZ"),
  ("phoenix", "Phoenix, AZ"),
  ("prescott", "Prescott, AZ"),
  ("showlow", "Show Low, AZ"),
  ("sierravista", "Sierra Vista, AZ"),
  ("tucson", "Tucson, AZ"),
  ("yuma", "Yuma, AZ"),
  ("fayar", "Fayetteville, AR"),
  ("fortsmith", "Fort Smith, AR"),
  ("jonesboro", "Jonesboro, AR"),
  ("littlerock", "Little Rock, AR"),
  ("texarkana", "Texarkana, AR"),
  ("bakersfield", "Bakersfield, CA"),
  ("chico", "Chico, CA"),
  ("fresno", "Fresno / Madera, CA"),
  ("goldcountry", "Gold Country, CA"),
  ("hanford", "Hanford-Corcoran, CA"),
  ("humboldt", "Humboldt County, CA"),
  ("imperial", "Imperial County, CA"),
  ("inlandempire", "Inland Empire, CA"),
  ("losangeles", "Los Angeles, CA"),
  ("mendocino", "Mendocino County, CA"),
  ("merced", "Merced, CA"),
  ("modesto", "Modesto, CA"),
  ("monterey", "Monterey Bay, CA"),
  ("orangecounty", "Orange County, CA"),
  ("palmsprings", "Palm Springs, CA"),
  ("redding", "Redding, CA"),
  ("sacramento", "Sacramento, CA"),
  ("sandiego", "San Diego, CA"),
  ("sfbay", "San Francisco Bay Area, CA"),
  ("slo", "San Luis Obispo, CA"),
  ("santabarbara", "Santa Barbara, CA"),
  ("santamaria", "Santa Maria, CA"),
  ("siskiyou", "Siskiyou County, CA"),
  ("stockton", "Stockton, CA"),
  ("susanville", "Susanville, CA"),
  ("ventura", "Ventura County, CA"),
  ("visalia", "Visalia-Tulare, CA"),
  ("yubasutter", "Yuba-Sutter, CA"),
  ("boulder", "Boulder, CO"),
  ("cosprings", "Colorado Springs, CO"),
  ("denver", "Denver, CO"),
  ("eastco", "Eastern CO"),
  ("fortcollins", "Fort Collins / North CO"),
  ("pueblo", "Pueblo, CO"),
  ("rockies", "High Rockies, CO"),
  ("westslope", "Western Slope, CO"),
  ("newhaven", "New Haven, CT"),
  ("hartford", "Hartford, CT"),
  ("nwct", "Northwest CT"),
  ("eastern-ct", "Eastern CT"),
  ("delaware", "Delaware"),
  ("washingtondc", "Washington, DC"),
  ("daytona", "Daytona Beach, FL"),
  ("keys", "Florida Keys, FL"),
  ("fortlauderdale", "Fort Lauderdale, FL"),
  ("fortmyers", "Fort Myers / SW Florida, FL"),
  ("gainesville", "Gainesville, FL"),
  ("cfl", "Heartland Florida, FL"),
  ("jacksonville", "Jacksonville, FL"),
  ("lakeland", "Lakeland, FL"),
  ("lakecity", "Lake City, FL"),
  ("ocala", "Ocala, FL"),
  ("okaloosa", "Okaloosa / Walton, FL"),
  ("orlando", "Orlando, FL"),
  ("panama", "Panama City, FL"),
  ("pensacola", "Pensacola, FL"),
  ("sarasota", "Sarasota-Bradenton, FL"),
  ("miami", "South Florida / Miami, FL"),
  ("spacecoast", "Space Coast, FL"),
  ("staugustine", "St Augustine, FL"),
  ("tallahassee", "Tallahassee, FL"),
  ("tampa", "Tampa Bay Area, FL"),
  ("treasure", "Treasure Coast, FL"),
  ("albanyga", "Albany, GA"),
  ("athens", "Athens, GA"),
  ("atlanta", "Atlanta, GA"),
  ("augusta", "Augusta, GA"),
  ("brunswick", "Brunswick, GA"),
  ("columbus", "Columbus, OH"),
  ("macon", "Macon / Warner Robins, GA"),
  ("nwga", "Northwest GA"),
  ("savannah", "Savannah / Hinesville, GA"),
  ("statesboro", "Statesboro, GA"),
  ("valdosta", "Valdosta, GA"),
  ("honolulu", "Hawaii"),
  ("boise", "Boise, ID"),
  ("easternidaho", "East Idaho, ID"),
  ("lewiston", "Lewiston / Clarkston, ID"),
  ("twinfalls", "Twin Falls, ID"),
  ("bn", "Bloomington-Normal, IL"),
  ("chambana", "Champaign Urbana, IL"),
  ("chicago", "Chicago, IL"),
  ("decatur", "Decatur, IL"),
  ("lasalle", "La Salle Co, IL"),
  ("mattoon", "Mattoon-Charleston, IL"),
  ("peoria", "Peoria, IL"),
  ("rockford", "Rockford, IL"),
  ("carbondale", "Southern Illinois, IL"),
  ("springfieldil", "Springfield, IL"),
  ("quincy", "Western IL"),
  ("bloomington", "Bloomington, IN"),
  ("evansville", "Evansville, IN"),
  ("fortwayne", "Fort Wayne, IN"),
  ("indianapolis", "Indianapolis, IN"),
  ("kokomo", "Kokomo, IN"),
  ("lafayette", "Lafayette, LA"),
  ("muncie", "Muncie / Anderson, IN"),
  ("richmondin", "Richmond, IN"),
  ("southbend", "South Bend / Michiana, IN"),
  ("terrehaute", "Terre Haute, IN"),
  ("ames", "Ames, IA"),
  ("cedarrapids", "Cedar Rapids, IA"),
  ("desmoines", "Des Moines, IA"),
  ("dubuque", "Dubuque, IA"),
  ("fortdodge", "Fort Dodge, IA"),
  ("iowacity", "Iowa City, IA"),
  ("masoncity", "Mason City, IA"),
  ("quadcities", "Quad Cities, IA/IL"),
  ("siouxcity", "Sioux City, IA"),
  ("ottumwa", "Southeast IA"),
  ("waterloo", "Waterloo / Cedar Falls, IA"),
  ("lawrence", "Lawrence, KS"),
  ("ksu", "Manhattan, KS"),
  ("nwks", "Northwest KS"),
  ("salina", "Salina, KS"),
  ("seks", "Southeast KS"),
  ("swks", "Southwest KS"),
  ("topeka", "Topeka, KS"),
  ("wichita", "Wichita, KS"),
  ("bgky", "Bowling Green, KY"),
  ("eastky", "Eastern Kentucky"),
  ("lexington", "Lexington, KY"),
  ("louisville", "Louisville, KY"),
  ("owensboro", "Owensboro, KY"),
  ("westky", "Western KY"),
  ("batonrouge", "Baton Rouge, LA"),
  ("cenla", "Central Louisiana, LA"),
  ("houma", "Houma, LA"),
  ("lakecharles", "Lake Charles, LA"),
  ("monroe", "Monroe, LA"),
  ("neworleans", "New Orleans, LA"),
  ("shreveport", "Shreveport, LA"),
  ("maine", "Maine"),
  ("annapolis", "Annapolis, MD"),
  ("baltimore", "Baltimore, MD"),
  ("easternshore", "Eastern Shore, MD"),
  ("frederick", "Frederick, MD"),
  ("smd", "Southern Maryland"),
  ("westmd", "Western Maryland"),
  ("boston", "Boston, MA"),
  ("capecod", "Cape Cod / Islands, MA"),
  ("southcoast", "South Coast, MA"),
  ("westernmass", "Western Massachusetts"),
  ("worcester", "Worcester / Central MA"),
  ("annarbor", "Ann Arbor, MI"),
  ("battlecreek", "Battle Creek, MI"),
  ("centralmich", "Central Michigan"),
  ("detroit", "Detroit Metro, MI"),
  ("flint", "Flint, MI"),
  ("grandrapids", "Grand Rapids, MI"),
  ("holland", "Holland, MI"),
  ("jxn", "Jackson, MI"),
  ("kalamazoo", "Kalamazoo, MI"),
  ("lansing", "Lansing, MI"),
  ("monroemi", "Monroe, MI"),
  ("muskegon", "Muskegon, MI"),
  ("nmi", "Northern Michigan"),
  ("porthuron", "Port Huron, MI"),
  ("saginaw", "Saginaw-Midland-Bay City, MI"),
  ("swmi", "Southwest Michigan"),
  ("thumb", "The Thumb, MI"),
  ("up", "Upper Peninsula, MI"),
  ("bemidji", "Bemidji, MN"),
  ("brainerd", "Brainerd, MN"),
  ("duluth", "Duluth / Superior, MN"),
  ("mankato", "Mankato, MN"),
  ("minneapolis", "Minneapolis / St Paul, MN"),
  ("rmn", "Rochester, MN"),
  ("marshall", "Southwest MN"),
  ("stcloud", "St Cloud, MN"),
  ("gulfport", "Gulfport / Biloxi, MS"),
  ("hattiesburg", "Hattiesburg, MS"),
  ("jackson", "Jackson, MS"),
  ("meridian", "Meridian, MS"),
  ("northmiss", "North Mississippi"),
  ("natchez", "Southwest MS"),
  ("columbiamo", "Columbia / Jeff City, MO"),
  ("joplin", "Joplin, MO"),
  ("kansascity", "Kansas City, MO"),
  ("kirksville", "Kirksville, MO"),
  ("loz", "Lake of the Ozarks, MO"),
  ("semo", "Southeast Missouri"),
  ("springfield", "Springfield, MO"),
  ("stjoseph", "St Joseph, MO"),
  ("stlouis", "St Louis, MO"),
  ("billings", "Billings, MT"),
  ("bozeman", "Bozeman, MT"),
  ("butte", "Butte, MT"),
  ("greatfalls", "Great Falls, MT"),
  ("helena", "Helena, MT"),
  ("kalispell", "Kalispell, MT"),
  ("missoula", "Missoula, MT"),
  ("montana", "Eastern Montana"),
  ("grandisland", "Grand Island, NE"),
  ("lincoln", "Lincoln, NE"),
  ("northplatte", "North Platte, NE"),
  ("omaha", "Omaha / Council Bluffs, NE"),
  ("scottsbluff", "Scottsbluff / Panhandle, NE"),
  ("elko", "Elko, NV"),
  ("lasvegas", "Las Vegas, NV"),
  ("reno", "Reno / Tahoe, NV"),
  ("nh", "New Hampshire"),
  ("cnj", "Central NJ"),
  ("jerseyshore", "Jersey Shore, NJ"),
  ("newjersey", "North Jersey, NJ"),
  ("southjersey", "South Jersey, NJ"),
  ("albuquerque", "Albuquerque, NM"),
  ("clovis", "Clovis / Portales, NM"),
  ("farmington", "Farmington, NM"),
  ("lascruces", "Las Cruces, NM"),
  ("roswell", "Roswell / Carlsbad, NM"),
  ("santafe", "Santa Fe / Taos, NM"),
  ("albany", "Albany, NY"),
  ("binghamton", "Binghamton, NY"),
  ("buffalo", "Buffalo, NY"),
  ("catskills", "Catskills, NY"),
  ("chautauqua", "Chautauqua, NY"),
  ("elmira", "Elmira-Corning, NY"),
  ("fingerlakes", "Finger Lakes, NY"),
  ("glensfalls", "Glens Falls, NY"),
  ("hudsonvalley", "Hudson Valley, NY"),
  ("ithaca", "Ithaca, NY"),
  ("longisland", "Long Island, NY"),
  ("newyork", "New York City, NY"),
  ("oneonta", "Oneonta, NY"),
  ("plattsburgh", "Plattsburgh-Adirondacks, NY"),
  ("potsdam", "Potsdam-Canton-Massena, NY"),
  ("rochester", "Rochester, NY"),
  ("syracuse", "Syracuse, NY"),
  ("utica", "Utica-Rome-Oneida, NY"),
  ("watertown", "Watertown, NY"),
  ("asheville", "Asheville, NC"),
  ("boone", "Boone, NC"),
  ("charlotte", "Charlotte, NC"),
  ("eastnc", "Eastern NC"),
  ("fayetteville", "Fayetteville, NC"),
  ("greensboro", "Greensboro, NC"),
  ("hickory", "Hickory / Lenoir, NC"),
  ("onslow", "Jacksonville, NC"),
  ("outerbanks", "Outer Banks, NC"),
  ("raleigh", "Raleigh / Durham / CH, NC"),
  ("wilmington", "Wilmington, NC"),
  ("winstonsalem", "Winston-Salem, NC"),
  ("bismarck", "Bismarck, ND"),
  ("fargo", "Fargo / Moorhead, ND"),
  ("grandforks", "Grand Forks, ND"),
  ("nd", "North Dakota"),
  ("akroncanton", "Akron / Canton, OH"),
  ("ashtabula", "Ashtabula, OH"),
  ("athensohio", "Athens, OH"),
  ("chillicothe", "Chillicothe, OH"),
  ("cincinnati", "Cincinnati, OH"),
  ("cleveland", "Cleveland, OH"),
  ("dayton", "Dayton / Springfield, OH"),
  ("limaohio", "Lima / Findlay, OH"),
  ("mansfield", "Mansfield, OH"),
  ("sandusky", "Sandusky, OH"),
  ("toledo", "Toledo, OH"),
  ("tuscarawas", "Tuscarawas Co, OH"),
  ("youngstown", "Youngstown, OH"),
  ("zanesville", "Zanesville / Cambridge, OH"),
  ("lawton", "Lawton, OK"),
  ("enid", "Northwest OK"),
  ("oklahomacity", "Oklahoma City, OK"),
  ("stillwater", "Stillwater, OK"),
  ("tulsa", "Tulsa, OK"),
  ("bend", "Bend, OR"),
  ("corvallis", "Corvallis/Albany, OR"),
  ("eastoregon", "East Oregon, OR"),
  ("eugene", "Eugene, OR"),
  ("klamath", "Klamath Falls, OR"),
  ("medford", "Medford-Ashland, OR"),
  ("oregoncoast", "Oregon Coast, OR"),
  ("portland", "Portland, OR"),
  ("roseburg", "Roseburg, OR"),
  ("salem", "Salem, OR"),
  ("allentown", "Allentown, PA"),
  ("altoona", "Altoona-Johnstown, PA"),
  ("chambersburg", "Cumberland Valley, PA"),
  ("erie", "Erie, PA"),
  ("harrisburg", "Harrisburg, PA"),
  ("lancaster", "Lancaster, PA"),
  ("meadville", "Meadville, PA"),
  ("philadelphia", "Philadelphia, PA"),
  ("pittsburgh", "Pittsburgh, PA"),
  ("poconos", "Poconos, PA"),
  ("reading", "Reading, PA"),
  ("scranton", "Scranton / Wilkes-Barre, PA"),
  ("pennstate", "State College, PA"),
  ("williamsport", "Williamsport, PA"),
  ("york", "York, PA"),
  ("providence", "Providence / Warwick, RI"),
  ("charleston", "Charleston, SC"),
  ("columbia", "Columbia, SC"),
  ("florencesc", "Florence, SC"),
  ("greenville", "Greenville / Upstate, SC"),
  ("hiltonhead", "Hilton Head, SC"),
  ("myrtlebeach", "Myrtle Beach, SC"),
  ("nesd", "Northeast SD"),
  ("pierresd", "Pierre / Central SD"),
  ("rapidcity", "Rapid City / West SD"),
  ("siouxfalls", "Sioux Falls / SE SD"),
  ("sd", "South Dakota"),
  ("chattanooga", "Chattanooga, TN"),
  ("clarksville", "Clarksville, TN"),
  ("cookeville", "Cookeville, TN"),
  ("jacksontn", "Jackson, TN"),
  ("knoxville", "Knoxville, TN"),
  ("memphis", "Memphis, TN"),
  ("nashville", "Nashville, TN"),
  ("tricities", "Tri-Cities, TN"),
  ("abilene", "Abilene, TX"),
  ("amarillo", "Amarillo, TX"),
  ("austin", "Austin, TX"),
  ("beaumont", "Beaumont / Port Arthur, TX"),
  ("brownsville", "Brownsville, TX"),
  ("collegestation", "College Station, TX"),
  ("corpuschristi", "Corpus Christi, TX"),
  ("dallas", "Dallas / Fort Worth, TX"),
  ("nacogdoches", "Deep East Texas, TX"),
  ("delrio", "Del Rio / Eagle Pass, TX"),
  ("elpaso", "El Paso, TX"),
  ("galveston", "Galveston, TX"),
  ("houston", "Houston, TX"),
  ("killeen", "Killeen / Temple / Ft Hood, TX"),
  ("laredo", "Laredo, TX"),
  ("lubbock", "Lubbock, TX"),
  ("mcallen", "McAllen / Edinburg, TX"),
  ("midland", "Midland / Odessa, TX"),
  ("sanangelo", "San Angelo, TX"),
  ("sanantonio", "San Antonio, TX"),
  ("sanmarcos", "San Marcos, TX"),
  ("bigbend", "Southwest TX"),
  ("texoma", "Texoma, TX"),
  ("easttexas", "Tyler / East TX"),
  ("victoriatx", "Victoria, TX"),
  ("waco", "Waco, TX"),
  ("wichitafalls", "Wichita Falls, TX"),
  ("logan", "Logan, UT"),
  ("ogden", "Ogden-Clearfield, UT"),
  ("provo", "Provo / Orem, UT"),
  ("saltlakecity", "Salt Lake City, UT"),
  ("stgeorge", "St George, UT"),
  ("burlington", "Burlington, VT"),
  ("charlottesville", "Charlottesville, VA"),
  ("danville", "Danville, VA"),
  ("fredericksburg", "Fredericksburg, VA"),
  ("harrisonburg", "Harrisonburg, VA"),
  ("lynchburg", "Lynchburg, VA"),
  ("blacksburg", "New River Valley, VA"),
  ("norfolk", "Norfolk / Hampton Roads, VA"),
  ("richmond", "Richmond, VA"),
  ("roanoke", "Roanoke, VA"),
  ("swva", "Southwest VA"),
  ("winchester", "Winchester, VA"),
  ("bellingham", "Bellingham, WA"),
  ("kpr", "Kennewick-Pasco-Richland, WA"),
  ("moseslake", "Moses Lake, WA"),
  ("olympic", "Olympic Peninsula, WA"),
  ("pullman", "Pullman / Moscow, WA"),
  ("seattle", "Seattle-Tacoma, WA"),
  ("skagit", "Skagit / Island / SJI, WA"),
  ("spokane", "Spokane / Coeur d\x27Alene, WA"),
  ("wenatchee", "Wenatchee, WA"),
  ("yakima", "Yakima, WA"),
  ("charlestonwv", "Charleston, WV"),
  ("martinsburg", "Eastern Panhandle, WV"),
  ("huntington", "Huntington-Ashland, WV"),
  ("morgantown", "Morgantown, WV"),
  ("ohiovalley", "Northern Panhandle, WV"),
  ("parkersburg", "Parkersburg-Marietta, WV"),
  ("swv", "Southern WV"),
  ("wv", "West Virginia (old)"),
  ("wheeling", "Wheeling, WV"),
  ("appleton", "Appleton-Oshkosh-FDL, WI"),
  ("eauclaire", "Eau Claire, WI"),
  ("greenbay", "Green Bay, WI"),
  ("janesville", "Janesville, WI"),
  ("racine", "Kenosha-Racine, WI"),
  ("lacrosse", "La Crosse, WI"),
  ("madison", "Madison, WI"),
  ("milwaukee", "Milwaukee, WI"),
  ("northernwi", "Northern WI"),
  ("sheboygan", "Sheboygan, WI"),
  ("wausau", "Wausau, WI"),
  ("wyoming", "Wyoming"),
  ("barrie", "Barrie, ON"),
  ("calgary", "Calgary, AB"),
  ("comoxvalley", "Comox Valley, BC"),
  ("edmonton", "Edmonton, AB"),
  ("ftmcmurray", "Fort McMurray, AB"),
  ("halifax", "Halifax, NS"),
  ("hamilton", "Hamilton-Burlington, ON"),
  ("kamloops", "Kamloops, BC"),
  ("kelowna", "Kelowna / Okanagan, BC"),
  ("kingston", "Kingston, ON"),
  ("kitchener", "Kitchener-Waterloo-Cambridge, ON"),
  ("lethbridge", "Lethbridge, AB"),
  ("london", "London, ON"),
  ("montreal", "Montreal, QC"),
  ("ottawa", "Ottawa-Hull-Gatineau, ON"),
  ("pei", "PEI"),
  ("quebec", "Quebec City, QC"),
  ("regina", "Regina, SK"),
  ("saskatoon", "Saskatoon, SK"),
  ("soo", "Sault Ste Marie, ON"),
  ("stcatharines", "St Catharines, ON"),
  ("sudbury", "Sudbury, ON"),
  ("thunderbay", "Thunder Bay, ON"),
  ("toronto", "Toronto, ON"),
  ("vancouver", "Vancouver, BC"),
  ("victoria", "Victoria, BC"),
  ("whistler", "Whistler, BC"),
  ("windsor", "Windsor, ON"),
  ("winnipeg", "Winnipeg, MB")]

/-- The category table (`CATEGORIES` in `scraper.py`), in declaration
order; all 57 keys are distinct. -/
def CATEGORIES : List (String × String) := [
  ("sss", "All For Sale"),
  ("ata", "Antiques"),
  ("ppa", "Appliances"),
  ("ara", "Arts & Crafts"),
  ("sna", "ATV/UTV/Snowmobile"),
  ("pta", "Auto Parts"),
  ("baa", "Baby & Kid Stuff"),
  ("bar", "Barter"),
  ("haa", "Health & Beauty"),
  ("bip", "Bicycle Parts"),
  ("bia", "Bicycles"),
  ("boa", "Boats"),
  ("bka", "Books"),
  ("bfa", "Business/Commercial"),
  ("cta", "Cars & Trucks"),
  ("ema", "CDs/DVDs/VHS"),
  ("moa", "Cell Phones"),
  ("cla", "Clothing & Accessories"),
  ("cba", "Collectibles"),
  ("syp", "Computer Parts"),
  ("sya", "Computers"),
  ("ela", "Electronics"),
  ("gra", "Farm & Garden"),
  ("zip", "Free Stuff"),
  ("fua", "Furniture"),
  ("gms", "Garage & Moving Sales"),
  ("foa", "General For Sale"),
  ("hva", "Heavy Equipment"),
  ("hsa", "Household Items"),
  ("jwa", "Jewelry"),
  ("maa", "Materials"),
  ("mca", "Motorcycles/Scooters"),
  ("msa", "Musical Instruments"),
  ("pha", "Photo/Video"),
  ("rva", "Recreational Vehicles"),
  ("sga", "Sporting Goods"),
  ("tia", "Tickets"),
  ("tla", "Tools"),
  ("taa", "Toys & Games"),
  ("tra", "Trailers"),
  ("vga", "Video Gaming"),
  ("waa", "Wanted"),
  ("hhh", "All Housing"),
  ("apa", "Apartments / Housing For Rent"),
  ("swp", "Housing Swap"),
  ("hsw", "Housing Wanted"),
  ("off", "Office & Commercial"),
  ("prk", "Parking & Storage"),
  ("rea", "Real Estate For Sale"),
  ("roo", "Rooms & Shares"),
  ("sha", "Rooms Wanted"),
  ("sbw", "Sublets & Temporary"),
  ("vac", "Vacation Rentals"),
  ("jjj", "All Jobs"),
  ("bbb", "All Services"),
  ("ggg", "All Gigs"),
  ("ccc", "All Community")]

/-- `SORT_OPTIONS` from `scraper.py`. -/
def SORT_OPTIONS : List (String × String) := [
  ("relevant", "Most Relevant"),
  ("date", "Newest"),
  ("priceasc", "Price Low to High"),
  ("pricedsc", "Price High to Low")]

/-! ## URL builder (`_build_search_url`)

The `params` dict never sees the same key twice, so it is kept as the list
of key/value pairs in the order the Python code inserts them; integer
values are rendered with `str` at insertion, as `urlencode` would. -/

/-- One optional parameter: a singleton pairing when the value is
present, nothing otherwise. -/
def strParam (o : Option String) (k : String) : List (String × String) :=
  match o with
  | some v => [(k, v)]
  | none => []

/-- `urllib.parse.quote_plus`: keep alphanumerics and `_.-~`, turn a
space into `+`, percent-encode every other byte of the UTF-8 encoding
(uppercase hex). -/
def hexUpper (n : Nat) : Char :=
  if n < 10 then Char.ofNat (48 + n) else Char.ofNat (55 + n)

def isUrlSafe (c : Char) : Bool :=
  c.isAlphanum || c == '_' || c == '.' || c == '-' || c == '~'

def percentByte (b : UInt8) : String :=
  let n := b.toNat
  ⟨['%', hexUpper (n / 16), hexUpper (n % 16)]⟩

def quotePlus (s : String) : String :=
  s.toList.foldl
    (fun acc c =>
      if isUrlSafe c then acc.push c
      else if c == ' ' then acc.push '+'
      else acc ++ String.join (((String.singleton c).toUTF8.toList).map percentByte))
    ""

/-- `urllib.parse.urlencode` over the ordered parameter list. -/
def urlencode (ps : List (String × String)) : String :=
  String.intercalate "&" (ps.map fun kv => quotePlus kv.1 ++ "=" ++ quotePlus kv.2)

/-- The parameter list built by `_build_search_url`, one block per
`if`-statement of the source, in source order.  `query`, `sort_by` and
`postal_code` are guarded by Python truthiness, the integer options by
`is not None`, the flags by their boolean, the sort key additionally by
membership in `SORT_OPTIONS`, and the offset by `offset > 0`. -/
def searchParams (query : Option String) (minPrice maxPrice : Option Int)
    (sortBy : Option String) (hasImage postedToday bundleDuplicates : Bool)
    (searchDistance : Option Int) (postalCode : Option String) (offset : Int) :
    List (String × String) :=
  strParam (if pyTruthy query then some (query.getD "") else none) "query" ++
  strParam (minPrice.map toString) "min_price" ++
  strParam (maxPrice.map toString) "max_price" ++
  strParam (if pyTruthy sortBy && (alookup SORT_OPTIONS (sortBy.getD "")).isSome
            then some (sortBy.getD "") else none) "sort" ++
  strParam (if hasImage then some "1" else none) "hasPic" ++
  strParam (if postedToday then some "1" else none) "postedToday" ++
  strParam (if bundleDuplicates then some "1" else none) "bundleDuplicates" ++
  strParam (searchDistance.map toString) "search_distance" ++
  strParam (if pyTruthy postalCode then some (postalCode.getD "") else none) "postal" ++
  strParam (if 0 < offset then some (toString offset) else none) "s"

/-- `_build_search_url`. -/
def buildSearchUrl (location category : String) (query : Option String)
    (minPrice maxPrice : Option Int) (sortBy : Option String)
    (hasImage postedToday bundleDuplicates : Bool) (searchDistance : Option Int)
    (postalCode : Option String) (offset : Int) : String :=
  let base := "https://" ++ location ++ ".craigslist.org/search/" ++ category
  let ps := searchParams query minPrice maxPrice sortBy hasImage postedToday
    bundleDuplicates searchDistance postalCode offset
  if ps.isEmpty then base else base ++ "?" ++ urlencode ps

/-! ## Document models

A search-results page is recorded by the outcome of each selector the
code runs over it; a node of the result list by the outcome of the
selectors `_parse_single_result` runs over that node. -/

/-- A `<time>`-like element: its machine-readable attribute (when the
attribute exists) and its visible text. -/
structure TimeElM where
  datetimeAttr : Option String
  text : String
deriving DecidableEq, Repr

/-- An `<img>` inside a result node: `src` / `data-src` attributes. -/
structure ThumbM where
  src : Option String
  dataSrc : Option String
deriving DecidableEq, Repr

/-- The anchor `_parse_single_result` settles on (the prioritized anchor
selector list, falling back to the first `<a>` of the node): its `href`
attribute and `get_text(strip=True)`. -/
structure AnchorM where
  href : Option String
  text : String
deriving DecidableEq, Repr

/-- One candidate result node, described by the outcome of the child
selectors of `_parse_single_result`:
`titleEl` = the anchor (`a.titlestring, …` then plain `a`),
`titleDiv` = `div.title, .result-title, span.title` text,
`priceEl` = `div.price, .priceinfo, .result-price, span.price, .price` text,
`hoodEl` = `div.location, .result-hood, .neighborhood, .surlabel, .meta .area` text,
`dateEl` = `time, .result-date, .date, .meta .date`,
`imgEl` = first `img`. -/
structure NodeM where
  titleEl : Option AnchorM
  titleDiv : Option String
  priceEl : Option String
  hoodEl : Option String
  dateEl : Option TimeElM
  imgEl : Option ThumbM
deriving DecidableEq, Repr

/-- A listing summary (`_parse_single_result` / fallback record). -/
structure Listing where
  url : String
  title : String
  price : Option String
  neighborhood : Option String
  date : Option String
  thumbnail : Option String
deriving DecidableEq, Repr

/-- `_parse_single_result`.  The dict entries `title` / `price` /
`neighborhood` are tracked as optional values; `price` needs
`Option (Option String)` because Python distinguishes "key absent" from
"key present holding None" (`result["price"] = None`) before the final
`setdefault` collapses the two. -/
def parseSingleResult (item : NodeM) (location : String) : Option Listing :=
  match item.titleEl with
  | none => none
  | some a =>
    let href0 := a.href.getD ""
    let url :=
      if href0 ≠ "" ∧ ¬ startsWithHttp href0 then
        "https://" ++ location ++ ".craigslist.org" ++ href0
      else href0
    -- dedicated child elements (modern layout)
    let titleE : Option String := item.titleDiv
    let priceE : Option (Option String) := item.priceEl.map some
    let hoodE : Option String := item.hoodEl.map stripParenSpace
    let raw := a.text
    -- fallback: `if "title" not in result or not result.get("title")`
    let fb : Option String × Option (Option String) × Option String :=
      if titleE.getD "" = "" then
        if priceE.isNone then
          match findDollar raw with
          | some (s, e) =>
            let beforePrice := pyStrip (substrRange raw 0 s)
            let afterPrice := pyStrip (substrRange raw e raw.toList.length)
            let title := if beforePrice ≠ "" then beforePrice else raw
            let hood :=
              if afterPrice ≠ "" ∧ hoodE.isNone then some afterPrice else hoodE
            (some title, some (some (substrRange raw s e)), hood)
          | none => (some raw, some none, hoodE)
        else
          let priceText := (priceE.getD none).getD ""
          let clean0 := pyStrip (pyReplace raw priceText "")
          let clean :=
            match hoodE with
            | some h => pyStrip (pyReplace clean0 h "")
            | none => clean0
          (some (if clean ≠ "" then clean else raw), priceE, hoodE)
      else (titleE, priceE, hoodE)
    let (titleE, priceE, hoodE) := fb
    -- `setdefault` for the three keys, then date and thumbnail
    some
      { url := url
        title := titleE.getD raw
        price := (priceE.getD none)
        neighborhood := hoodE
        date := item.dateEl.map fun te =>
          if pyTruthy te.datetimeAttr then te.datetimeAttr.getD "" else te.text
        thumbnail := item.imgEl.bind fun im => pyOrS im.src im.dataSrc }

/-- An anchor of the whole document, as seen by the fallback scan:
`href` attribute, `get_text(strip=True)`, and the parent element's
`get_text()` when the anchor has a parent. -/
structure FAnchor where
  href : Option String
  text : String
  parentText : Option String
deriving DecidableEq, Repr

/-- The listing-URL path pattern `/[a-z]{3}/d/[^/]+/\d+\.html`, matched
at the head of the character list.  The regex is backtracking-free here:
`[^/]+` must stop at the first `/`, and `\d+` must stop at the first
non-digit, which the literal `.html` then has to follow. -/
def isLowerAZ (c : Char) : Bool := 'a' ≤ c && c ≤ 'z'

def matchListingAt (cs : List Char) : Bool :=
  match cs with
  | '/' :: a :: b :: c :: '/' :: 'd' :: '/' :: rest =>
    isLowerAZ a && isLowerAZ b && isLowerAZ c &&
      (let seg := rest.takeWhile (· != '/')
       if seg.isEmpty then false
       else
         match rest.drop seg.length with
         | '/' :: rest2 =>
           let ds := rest2.takeWhile Char.isDigit
           if ds.isEmpty then false
           else ".html".toList.isPrefixOf (rest2.drop ds.length)
         | _ => false)
  | _ => false

/-- `re.search` of the listing-URL pattern: a match at some position. -/
def searchListingPattern : List Char → Bool
  | [] => false
  | c :: rest => matchListingAt (c :: rest) || searchListingPattern rest

/-- One step of the fallback loop of `_parse_results_fallback`, carrying
the `seen_urls` set (as the list of URLs in first-seen order) and the
accumulated records. -/
def fallbackStep (location : String) (st : List String × List Listing)
    (a : FAnchor) : List String × List Listing :=
  match a.href with
  | none => st
  | some h0 =>
    if ¬ searchListingPattern h0.toList then st
    else
      let (seen, results) := st
      let href :=
        if ¬ startsWithHttp h0 then
          "https://" ++ location ++ ".craigslist.org" ++ h0
        else h0
      if seen.contains href then st
      else
        let seen2 := seen ++ [href]
        let title := a.text
        if title = "" ∨ title.length < 3 then (seen2, results)
        else
          let price :=
            match a.parentText with
            | some pt => (findDollar pt).map fun se => substrRange pt se.1 se.2
            | none => none
          (seen2,
           results ++ [{ url := href, title := title, price := price,
                         neighborhood := none, date := none, thumbnail := none }])

/-- `_parse_results_fallback` over the document's anchors in order. -/
def parseResultsFallback (anchors : List FAnchor) (location : String) :
    List Listing :=
  (anchors.foldl (fallbackStep location) ([], [])).2

/-- A search-results page: each field is the node list one of the four
cascade selectors returns, plus all anchors of the document (with their
`href`, text and parent text) for `find_all("a", href=pattern)`. -/
structure SearchDoc where
  staticResults : List NodeM
  resultRows : List NodeM
  clSearchResults : List NodeM
  resultInfos : List NodeM
  anchors : List FAnchor
deriving Repr

/-- The selector cascade of `_parse_search_results`: first selector with
at least one node wins. -/
def cascadeNodes (doc : SearchDoc) : List NodeM :=
  if doc.staticResults ≠ [] then doc.staticResults
  else if doc.resultRows ≠ [] then doc.resultRows
  else if doc.clSearchResults ≠ [] then doc.clSearchResults
  else doc.resultInfos

/-- `_parse_search_results`: run the cascade, keep the nodes that parse
(`None` results and per-node failures are skipped), and fall back to the
link-pattern scan when no record survives. -/
def parseSearchResults (doc : SearchDoc) (location : String) : List Listing :=
  let results := (cascadeNodes doc).filterMap fun item => parseSingleResult item location
  if results = [] then parseResultsFallback doc.anchors location else results

/-! ## Detail extractor (`_parse_listing_detail`) -/

/-- A `<span>` inside an `.attrgroup`: its `class` list, its
`get_text(strip=True)`, and its `get_text(" ", strip=True)` (the latter is
what the generic branch reads). -/
structure SpanM where
  classes : List String
  text : String
  textSp : String
deriving DecidableEq, Repr

/-- Python `text.partition(":")` restricted to what the code uses: the
pieces before and after the first colon. -/
def partitionColon (s : String) : String × String :=
  let before := s.toList.takeWhile (· != ':')
  let after := s.toList.drop (before.length + 1)
  (⟨before⟩, ⟨after⟩)

/-- The label/value pairing loop over the flat span list of the attribute
groups: a single left-to-right pass whose index advances by 2 when a
label is followed by a value span and by 1 otherwise, writing into the
shared ordered dict `attrs`. -/
def pairSpansAux : List SpanM → List (String × String) → List (String × String)
  | [], attrs => attrs
  | s :: rest, attrs =>
    if s.classes.contains "labl" then
      let label := pyLower (pyStrip (rstripColon s.text))
      match rest with
      | s2 :: rest2 =>
        if s2.classes.contains "valu" then
          let v := s2.text
          let attrs2 := if label ≠ "" ∧ v ≠ "" then dinsert attrs label v else attrs
          pairSpansAux rest2 attrs2
        else
          pairSpansAux (s2 :: rest2)
            (if label ≠ "" then dinsert attrs label "" else attrs)
      | [] =>
        pairSpansAux [] (if label ≠ "" then dinsert attrs label "" else attrs)
    else if s.classes.contains "valu" then
      let v := s.text
      let attrs2 :=
        if s.classes.contains "year" ∧ v ≠ "" then dinsert attrs "year" v
        else if s.classes.contains "makemodel" ∧ v ≠ "" then
          dinsert attrs "make/model" v
        else if v ≠ "" then dinsert attrs (pyLower v) "yes"
        else attrs
      pairSpansAux rest attrs2
    else
      let t := s.textSp
      let attrs2 :=
        if containsSub ":" t then
          let kv := partitionColon t
          let key := pyLower (pyStrip kv.1)
          let v := pyStrip kv.2
          if key ≠ "" ∧ v ≠ "" then dinsert attrs key v else attrs
        else if t ≠ "" then dinsert attrs (pyLower t) "yes"
        else attrs
      pairSpansAux rest attrs2

/-- The `attrs` dict after iterating every `.attrgroup`'s spans (the dict
is shared across groups). -/
def collectAttrs (groups : List (List SpanM)) : List (String × String) :=
  groups.foldl (fun attrs spans => pairSpansAux spans attrs) []

/-- The `#map` element's coordinate data attributes. -/
structure MapElM where
  dataLatitude : Option String
  dataLongitude : Option String
deriving DecidableEq, Repr

/-- An image-bearing element of the detail page (`a.thumb`, `.gallery
img`, `.swipe img`): `href` / `src` / `data-src` attributes. -/
structure ImgElM where
  href : Option String
  src : Option String
  dataSrc : Option String
deriving DecidableEq, Repr

/-- A listing-detail page, described by the outcome of every selector
`_parse_listing_detail` runs:
`titleTextOnly` = `#titletextonly` text,
`postingTitleText` = `.postingtitletext, h1.postingtitle` text,
`docTitle` = `<title>` text,
`priceText` = `.price, .postingtitletext .price` text,
`bodyTextNoQR` = `#postingbody` text after the `.print-information`
children are removed (`decompose` is DOM surgery performed before
`get_text`, so the model records the post-removal text),
`attrGroups` = the span lists of the `.attrgroup` containers,
`mapAddress` = `.mapaddress, div.mapAndAttrs small` text,
`mapEl` = `#map`, `timeEl` = `time.date, time.timeago`,
`imgEls` = `a.thumb, .gallery img, .swipe img` in document order,
`thumbsAnchors` = the `href`s of the `<a>`s under `#thumbs` (when that
container exists). -/
structure DetailDoc where
  titleTextOnly : Option String
  postingTitleText : Option String
  docTitle : Option String
  priceText : Option String
  bodyTextNoQR : Option String
  attrGroups : List (List SpanM)
  mapAddress : Option String
  mapEl : Option MapElM
  timeEl : Option TimeElM
  imgEls : List ImgElM
  thumbsAnchors : Option (List (Option String))
deriving Repr

/-- The detail record.  Coordinates are carried as their attribute
strings (the program never uses the numeric value, only whether `float`
accepts it — see `pyFloatParses`). -/
structure DetailR where
  url : String
  title : String
  price : Option String
  description : Option String
  attributes : Option (List (String × String))
  location : Option String
  latitude : Option String
  longitude : Option String
  posted : Option String
  images : Option (List String)
deriving DecidableEq, Repr

/-- The title-suffix pattern `\s*-?\s*\$[\d,]+\s*(\([^)]*\))?\s*$`
matched against the whole remainder `cs` (the `$` anchor).  Greedy runs
need no backtracking here: each `\s*` is followed by a non-space-class
token, `[\d,]+` by `\s`/`(`/end, and `[^)]*` by the literal `)`. -/
def titleSuffixMatchAt (cs : List Char) : Bool :=
  let r1 := cs.dropWhile Char.isWhitespace
  let r2 := match r1 with
    | '-' :: t => t
    | t => t
  let r3 := r2.dropWhile Char.isWhitespace
  match r3 with
  | '$' :: t =>
    let body := t.takeWhile isDollarBody
    if body.isEmpty then false
    else
      let r4 := (t.drop body.length).dropWhile Char.isWhitespace
      let r5 := match r4 with
        | '(' :: t2 =>
          let inner := t2.takeWhile (· != ')')
          match t2.drop inner.length with
          | ')' :: t3 => t3
          | _ => '(' :: t2
        | t2 => t2
      (r5.dropWhile Char.isWhitespace).isEmpty
  | _ => false

/-- `re.sub(r"\s*-?\s*\$[\d,]+\s*(\([^)]*\))?\s*$", "", raw)`: the
leftmost position whose suffix matches is cut off; no match leaves the
string unchanged. -/
def stripTitleSuffix (raw : String) : String :=
  let cs := raw.toList
  match (List.range (cs.length + 1)).find? (fun i => titleSuffixMatchAt (cs.drop i)) with
  | some i => ⟨cs.take i⟩
  | none => raw

/-- The image collection loop: `href or src or data-src` per element,
appended when truthy and not already collected, then the `#thumbs`
anchors under the same dedup. -/
def detailImages (doc : DetailDoc) : List String :=
  let fromEls := doc.imgEls.foldl
    (fun images im =>
      let src := pyOrS im.href (pyOrS im.src im.dataSrc)
      if pyTruthy src ∧ ¬ images.contains (src.getD "") then
        images ++ [src.getD ""]
      else images)
    []
  match doc.thumbsAnchors with
  | some hrefs =>
    hrefs.foldl
      (fun images h =>
        if pyTruthy h ∧ ¬ images.contains (h.getD "") then images ++ [h.getD ""]
        else images)
      fromEls
  | none => fromEls

/-- `_parse_listing_detail`.  The function is total except for the
coordinate branch: when both `data-latitude` and `data-longitude` are
truthy, `float()` is applied to each and a non-parseable value raises
`ValueError`, which `get_listing_details` does not catch — modelled by
`Except.error` carrying the Python exception message. -/
def parseListingDetail (doc : DetailDoc) (url : String) : Except String DetailR :=
  let title :=
    match doc.titleTextOnly with
    | some t => t
    | none =>
      match doc.postingTitleText with
      | some raw =>
        let cleaned := pyStrip (stripTitleSuffix raw)
        if cleaned ≠ "" then cleaned else raw
      | none =>
        match doc.docTitle with
        | some t => t
        | none => "Unknown"
  let attrs := collectAttrs doc.attrGroups
  let images := detailImages doc
  let base : DetailR :=
    { url := url
      title := title
      price := doc.priceText
      description := doc.bodyTextNoQR
      attributes := if attrs ≠ [] then some attrs else none
      location := doc.mapAddress
      latitude := none
      longitude := none
      posted := doc.timeEl.map fun te =>
        if pyTruthy te.datetimeAttr then te.datetimeAttr.getD "" else te.text
      images := if images ≠ [] then some images else none }
  match doc.mapEl with
  | some m =>
    if pyTruthy m.dataLatitude ∧ pyTruthy m.dataLongitude then
      let lat := m.dataLatitude.getD ""
      let lon := m.dataLongitude.getD ""
      if pyFloatParses lat then
        if pyFloatParses lon then
          .ok { base with latitude := some lat, longitude := some lon }
        else .error ("could not convert string to float: " ++ lon)
      else .error ("could not convert string to float: " ++ lat)
    else .ok base
  | none => .ok base

/-! ## Search orchestrator (`search_listings`) and reference lookups -/

/-- A structured error payload (`{"error": …, "url": …, "suggestion": …}`;
only the keys the code sets are present). -/
structure ErrObj where
  error : String
  url : Option String
  suggestion : Option String
deriving DecidableEq, Repr

/-- A failure of `_fetch_page`: `httpx.HTTPStatusError` (after
`raise_for_status`) or `httpx.RequestError`. -/
inductive FetchErr where
  | httpStatus (code : Nat) (reason : String)
  | request (msg : String)
deriving DecidableEq, Repr

/-- The error payload `search_listings` builds for a failed fetch. -/
def fetchErrPayload (e : FetchErr) (url : String) : ErrObj :=
  match e with
  | .httpStatus c r =>
    { error := "HTTP error " ++ toString c ++ ": " ++ r, url := some url,
      suggestion := none }
  | .request m =>
    { error := "Request failed: " ++ m, url := some url, suggestion := none }

/-- Location validation of `search_listings` (lines 950–960): lower-case
and strip; exact key, else first substring match against codes and
lower-cased display names in table order, else the unknown-location
payload. -/
def resolveLocation (location : String) : Except ErrObj String :=
  let loc := pyStrip (pyLower location)
  if (alookup LOCATIONS loc).isSome then .ok loc
  else
    let fuzzy := (LOCATIONS.filter fun kv =>
      containsSub loc kv.1 || containsSub loc (pyLower kv.2)).map fun kv => kv.1
    match fuzzy with
    | m :: _ => .ok m
    | [] =>
      .error
        { error := "Unknown location: \x27" ++ location ++
            "\x27. Use list_locations to see valid options.",
          url := none,
          suggestion := some
            "Try a location like \x27newyork\x27, \x27losangeles\x27, \x27chicago\x27, \x27seattle\x27, etc." }

/-- Category validation (lines 962–967): lower-case and strip, exact
match only. -/
def resolveCategory (category : String) : Except ErrObj String :=
  let cat := pyStrip (pyLower category)
  if (alookup CATEGORIES cat).isSome then .ok cat
  else
    .error
      { error := "Unknown category: \x27" ++ category ++
          "\x27. Use list_categories to see valid options.",
        url := none,
        suggestion := some
          "Try \x27sss\x27 (All For Sale), \x27mca\x27 (Motorcycles), \x27cta\x27 (Cars & Trucks), etc." }

/-- Outcome of the accumulation loop. -/
inductive LoopOut where
  | failed (e : ErrObj)
  | finished (acc : List Listing)
deriving DecidableEq, Repr

/-- The `while len(all_results) < max_results` loop of `search_listings`.
`fetch` abstracts `_fetch_page` (the network collaborator): it yields a
page's selector outcomes or a typed failure.  Each iteration builds the
offset URL, fetches, aborts the whole call on failure, and otherwise
appends the parsed page, breaking on an empty page or a short (< 20)
page; the offset advances by the number of results just extracted. -/
def searchLoop (fetch : String → Except FetchErr SearchDoc) (loc cat : String)
    (query : Option String) (minPrice maxPrice : Option Int)
    (sortBy : Option String) (hasImage postedToday bundleDuplicates : Bool)
    (searchDistance : Option Int) (postalCode : Option String)
    (maxResults : Int) (acc : List Listing) (offset : Int) : LoopOut :=
  if h : (acc.length : Int) < maxResults then
    let url := buildSearchUrl loc cat query minPrice maxPrice sortBy hasImage
      postedToday bundleDuplicates searchDistance postalCode offset
    match fetch url with
    | .error e => .failed (fetchErrPayload e url)
    | .ok doc =>
      let page := parseSearchResults doc loc
      if page = [] then .finished acc
      else if h2 : page.length < 20 then .finished (acc ++ page)
      else
        searchLoop fetch loc cat query minPrice maxPrice sortBy hasImage
          postedToday bundleDuplicates searchDistance postalCode maxResults
          (acc ++ page) (offset + page.length)
  else .finished acc
termination_by (maxResults - acc.length).toNat
decreasing_by
  have h20 : ¬ (parseSearchResults doc loc).length < 20 := h2
  simp only [List.length_append]
  omega

/-- Python slice `l[:m]` (a negative bound counts from the end). -/
def pySlice (m : Int) (l : List Listing) : List Listing :=
  if 0 ≤ m then l.take m.toNat else l.take ((l.length : Int) + m).toNat

/-- The success envelope of `search_listings`. -/
structure SearchEnvelope where
  query : String
  location : String
  locationName : String
  category : String
  categoryName : String
  url : String
  resultCount : Nat
  results : List Listing
deriving DecidableEq, Repr

inductive SearchOut where
  | failure (e : ErrObj)
  | success (env : SearchEnvelope)
deriving DecidableEq, Repr

/-- `search_listings`: validate, loop, trim to `max_results`, rebuild the
offset-0 URL for display, assemble the envelope. -/
def searchListings (fetch : String → Except FetchErr SearchDoc)
    (query location category : String) (minPrice maxPrice : Option Int)
    (sortBy : String) (hasImage postedToday bundleDuplicates : Bool)
    (searchDistance : Option Int) (postalCode : Option String)
    (maxResults : Int) : SearchOut :=
  match resolveLocation location with
  | .error e => .failure e
  | .ok loc =>
    match resolveCategory category with
    | .error e => .failure e
    | .ok cat =>
      match searchLoop fetch loc cat (some query) minPrice maxPrice
          (some sortBy) hasImage postedToday bundleDuplicates searchDistance
          postalCode maxResults [] 0 with
      | .failed e => .failure e
      | .finished allResults =>
        let trimmed := pySlice maxResults allResults
        let firstUrl := buildSearchUrl loc cat (some query) minPrice maxPrice
          (some sortBy) hasImage postedToday bundleDuplicates searchDistance
          postalCode 0
        .success
          { query := query
            location := loc
            locationName := (alookup LOCATIONS loc).getD loc
            category := cat
            categoryName := (alookup CATEGORIES cat).getD cat
            url := firstUrl
            resultCount := trimmed.length
            results := trimmed }

/-- An entry of the `get_categories` output. -/
structure CatEntry where
  code : String
  name : String
deriving DecidableEq, Repr

/-- The `get_categories` output object. -/
structure CategoriesOut where
  total : Nat
  categories : List CatEntry
deriving DecidableEq, Repr

/-- `get_categories`: the static table rendered in declaration order. -/
def getCategories : CategoriesOut :=
  { total := CATEGORIES.length
    categories := CATEGORIES.map fun kv => { code := kv.1, name := kv.2 } }

/-! ## Helper lemmas -/

theorem alookup_append (l1 l2 : List (String × String)) (k : String) :
    alookup (l1 ++ l2) k = firstSome (alookup l1 k) (alookup l2 k) := by
  induction l1 with
  | nil => rfl
  | cons kv t ih =>
    cases h : (kv.1 == k) with
    | true => simp [alookup, List.find?, h, firstSome]
    | false => simpa [alookup, List.find?, h] using ih

theorem firstSome_none_left (b : Option String) : firstSome none b = b := rfl

theorem alookup_strParam (o : Option String) (k k2 : String) :
    alookup (strParam o k) k2 = if k == k2 then o else none := by
  cases o with
  | none => cases h : k == k2 <;> simp [strParam, alookup, h]
  | some v => cases h : k == k2 <;> simp [strParam, alookup, List.find?, h]

theorem firstSome_none_right (a : Option String) : firstSome a none = a := by
  cases a <;> rfl

theorem str_append_empty (s : String) : s ++ "" = s := by
  cases s with
  | mk d => exact congrArg String.mk (List.append_nil d)

theorem str_append_assoc (a b c : String) : a ++ b ++ c = a ++ (b ++ c) := by
  cases a with
  | mk da =>
    cases b with
    | mk db =>
      cases c with
      | mk dc => exact congrArg String.mk (List.append_assoc da db dc)

/-- C5: `_build_search_url` is a pure function; its output is the base
string `https://{location}.craigslist.org/search/{category}` with a query
string appended exactly when at least one optional parameter is set, and
each parameter is present under exactly the source's condition: `query`,
`postal` and `sort` under Python truthiness of their argument (`sort`
additionally requires membership in `SORT_OPTIONS`), `min_price`,
`max_price` and `search_distance` when provided, the three flags as the
fixed sentinel `1` when their boolean is true, and `s` only when
`offset > 0`. -/
theorem c5_url_builder (location category : String) (query : Option String)
    (minPrice maxPrice : Option Int) (sortBy : Option String)
    (hasImage postedToday bundleDuplicates : Bool) (searchDistance : Option Int)
    (postalCode : Option String) (offset : Int) :
    (∃ suffix,
        buildSearchUrl location category query minPrice maxPrice sortBy hasImage
            postedToday bundleDuplicates searchDistance postalCode offset =
          ("https://" ++ location ++ ".craigslist.org/search/" ++ category) ++ suffix ∧
        (suffix = "" ↔
          searchParams query minPrice maxPrice sortBy hasImage postedToday
            bundleDuplicates searchDistance postalCode offset = [])) ∧
    alookup (searchParams query minPrice maxPrice sortBy hasImage postedToday
        bundleDuplicates searchDistance postalCode offset) "query" =
      (if pyTruthy query then some (query.getD "") else none) ∧
    alookup (searchParams query minPrice maxPrice sortBy hasImage postedToday
        bundleDuplicates searchDistance postalCode offset) "min_price" =
      minPrice.map toString ∧
    alookup (searchParams query minPrice maxPrice sortBy hasImage postedToday
        bundleDuplicates searchDistance postalCode offset) "max_price" =
      maxPrice.map toString ∧
    alookup (searchParams query minPrice maxPrice sortBy hasImage postedToday
        bundleDuplicates searchDistance postalCode offset) "sort" =
      (if pyTruthy sortBy && (alookup SORT_OPTIONS (sortBy.getD "")).isSome
       then some (sortBy.getD "") else none) ∧
    alookup (searchParams query minPrice maxPrice sortBy hasImage postedToday
        bundleDuplicates searchDistance postalCode offset) "hasPic" =
      (if hasImage then some "1" else none) ∧
    alookup (searchParams query minPrice maxPrice sortBy hasImage postedToday
        bundleDuplicates searchDistance postalCode offset) "postedToday" =
      (if postedToday then some "1" else none) ∧
    alookup (searchParams query minPrice maxPrice sortBy hasImage postedToday
        bundleDuplicates searchDistance postalCode offset) "bundleDuplicates" =
      (if bundleDuplicates then some "1" else none) ∧
    alookup (searchParams query minPrice maxPrice sortBy hasImage postedToday
        bundleDuplicates searchDistance postalCode offset) "search_distance" =
      searchDistance.map toString ∧
    alookup (searchParams query minPrice maxPrice sortBy hasImage postedToday
        bundleDuplicates searchDistance postalCode offset) "postal" =
      (if pyTruthy postalCode then some (postalCode.getD "") else none) ∧
    alookup (searchParams query minPrice maxPrice sortBy hasImage postedToday
        bundleDuplicates searchDistance postalCode offset) "s" =
      (if 0 < offset then some (toString offset) else none) := by
  refine ⟨?_, ?_, ?_, ?_, ?_, ?_, ?_, ?_, ?_, ?_, ?_⟩
  · by_cases hps : searchParams query minPrice maxPrice sortBy hasImage
        postedToday bundleDuplicates searchDistance postalCode offset = []
    · refine ⟨"", ?_, by simp [hps]⟩
      rw [str_append_empty]
      simp [buildSearchUrl, hps]
    · refine ⟨"?" ++ urlencode (searchParams query minPrice maxPrice sortBy
        hasImage postedToday bundleDuplicates searchDistance postalCode offset), ?_, ?_⟩
      · rw [← str_append_assoc]
        simp [buildSearchUrl, hps]
      · constructor
        · intro hsuffix
          exfalso
          have : ('?' :: (urlencode (searchParams query minPrice maxPrice sortBy
              hasImage postedToday bundleDuplicates searchDistance postalCode
              offset)).data) = [] := congrArg String.data hsuffix
          exact List.noConfusion this
        · intro hps2
          exact absurd hps2 hps
  all_goals
    simp [searchParams, alookup_append, alookup_strParam, firstSome_none_left,
      firstSome_none_right]

/-- C9: `get_categories` renders the static category table: it is a pure
function of no arguments (hence deterministic and idempotent — two calls
denote the same value and nothing mutates the table), its `categories`
list is the table in declaration order, and `total` equals the number of
table entries (57), which is also the length of the rendered list. -/
theorem c9_categories_static :
    getCategories.total = getCategories.categories.length ∧
    getCategories.total = 57 ∧
    getCategories.categories = CATEGORIES.map (fun kv => { code := kv.1, name := kv.2 }) ∧
    (getCategories.categories.map fun e => (e.code, e.name)) = CATEGORIES ∧
    getCategories.categories.head? = some { code := "sss", name := "All For Sale" } := by
  exact ⟨by simp [getCategories], by decide, rfl, by decide, by decide⟩

/-- C6: location validation lower-cases and trims the input, accepts an
exact key, otherwise takes the first table-order entry whose code or
lower-cased display name contains the input as a substring (so
`" San Fran "` resolves to `sfbay`, the San Francisco Bay Area entry),
and with no substring match (`"nyc"`) returns the unknown-location
payload with a suggestion string; `search_listings` then performs no
fetch — its result is the same failure for every fetch function.
Category validation is exact-match-only: `"antique"`, a substring of the
display name "Antiques", is still rejected with the unknown-category
payload, again with no fetch. -/
theorem c6_validation :
    resolveLocation " San Fran " = .ok "sfbay" ∧
    resolveLocation "nyc" = .error
      { error := "Unknown location: \x27nyc\x27. Use list_locations to see valid options.",
        url := none,
        suggestion := some "Try a location like \x27newyork\x27, \x27losangeles\x27, \x27chicago\x27, \x27seattle\x27, etc." } ∧
    resolveCategory " SSS " = .ok "sss" ∧
    resolveCategory "antique" = .error
      { error := "Unknown category: \x27antique\x27. Use list_categories to see valid options.",
        url := none,
        suggestion := some "Try \x27sss\x27 (All For Sale), \x27mca\x27 (Motorcycles), \x27cta\x27 (Cars & Trucks), etc." } ∧
    (∀ fetch q mi ma so hi pt bd sd pc mr,
      searchListings fetch q "nyc" "sss" mi ma so hi pt bd sd pc mr = .failure
        { error := "Unknown location: \x27nyc\x27. Use list_locations to see valid options.",
          url := none,
          suggestion := some "Try a location like \x27newyork\x27, \x27losangeles\x27, \x27chicago\x27, \x27seattle\x27, etc." }) ∧
    (∀ fetch q mi ma so hi pt bd sd pc mr,
      searchListings fetch q "newyork" "antique" mi ma so hi pt bd sd pc mr = .failure
        { error := "Unknown category: \x27antique\x27. Use list_categories to see valid options.",
          url := none,
          suggestion := some "Try \x27sss\x27 (All For Sale), \x27mca\x27 (Motorcycles), \x27cta\x27 (Cars & Trucks), etc." }) := by
  refine ⟨by rfl, by rfl, by rfl, by rfl, ?_, ?_⟩
  · intro fetch q mi ma so hi pt bd sd pc mr
    have h : resolveLocation "nyc" = .error
      { error := "Unknown location: \x27nyc\x27. Use list_locations to see valid options.",
        url := none,
        suggestion := some "Try a location like \x27newyork\x27, \x27losangeles\x27, \x27chicago\x27, \x27seattle\x27, etc." } := by rfl
    simp [searchListings, h]
  · intro fetch q mi ma so hi pt bd sd pc mr
    have hl : resolveLocation "newyork" = .ok "newyork" := by rfl
    have hc : resolveCategory "antique" = .error
      { error := "Unknown category: \x27antique\x27. Use list_categories to see valid options.",
        url := none,
        suggestion := some "Try \x27sss\x27 (All For Sale), \x27mca\x27 (Motorcycles), \x27cta\x27 (Cars & Trucks), etc." } := by rfl
    simp [searchListings, hl, hc]

/-- The C2 fixture: a node whose only content is the anchor with text
`"Mountain Bike $150(Brooklyn)"` and no structured children. -/
def nodeC2 : NodeM :=
  { titleEl := some { href := some "/brk/bik/d/mountain-bike/1234567890.html",
                      text := "Mountain Bike $150(Brooklyn)" },
    titleDiv := none, priceEl := none, hoodEl := none, dateEl := none,
    imgEl := none }

/-- C2 counterexample: on the claimed fixture the code returns
`neighborhood = "(Brooklyn)"` — the text after the dollar amount is *not*
stripped of parentheses on this code path (`result["neighborhood"] =
after_price` at scraper.py:717; the `strip("() ")` happens only in the
dedicated-child branch at scraper.py:702), so the claimed
`neighborhood = "Brooklyn"` is false. -/
theorem c2_counterexample :
    parseSingleResult nodeC2 "newyork" =
      some { url := "https://newyork.craigslist.org/brk/bik/d/mountain-bike/1234567890.html",
             title := "Mountain Bike", price := some "$150",
             neighborhood := some "(Brooklyn)", date := none, thumbnail := none } ∧
    (some "(Brooklyn)" : Option String) ≠ some "Brooklyn" :=
  ⟨by decide, by decide⟩

/-- C2 (amended): for a childless node, when neither a dedicated title
nor a dedicated price element is found, the anchor text is split on the
first dollar-amount pattern — text before (stripped) becomes the title
(the full text if it strips to empty), the match becomes the price, and
the text after (stripped, parentheses retained) becomes the neighborhood
when non-empty; with no dollar pattern the full text is the title and the
price is absent.  When a dedicated neighborhood element was found, the
split does not overwrite it.  On the fixture this yields
title="Mountain Bike", price="$150", neighborhood="(Brooklyn)". -/
theorem c2_dollar_split_rule :
    (∀ loc hrefv raw : String,
      parseSingleResult
          { titleEl := some { href := some hrefv, text := raw }, titleDiv := none,
            priceEl := none, hoodEl := none, dateEl := none, imgEl := none } loc =
        (let url := if hrefv ≠ "" ∧ ¬ startsWithHttp hrefv
          then "https://" ++ loc ++ ".craigslist.org" ++ hrefv else hrefv
         match findDollar raw with
         | some (s, e) =>
           some { url := url,
                  title := if pyStrip (substrRange raw 0 s) ≠ ""
                    then pyStrip (substrRange raw 0 s) else raw,
                  price := some (substrRange raw s e),
                  neighborhood := if pyStrip (substrRange raw e raw.toList.length) ≠ ""
                    then some (pyStrip (substrRange raw e raw.toList.length)) else none,
                  date := none, thumbnail := none }
         | none =>
           some { url := url, title := raw, price := none, neighborhood := none,
                  date := none, thumbnail := none })) ∧
    (∀ loc hrefv raw h : String,
      (parseSingleResult
          { titleEl := some { href := some hrefv, text := raw }, titleDiv := none,
            priceEl := none, hoodEl := some h, dateEl := none, imgEl := none } loc).map
        (fun r => r.neighborhood) = some (some (stripParenSpace h))) ∧
    (parseSingleResult nodeC2 "newyork").map (fun r => (r.title, r.price, r.neighborhood)) =
      some ("Mountain Bike", some "$150", some "(Brooklyn)") := by
  refine ⟨?_, ?_, by decide⟩
  · intro loc hrefv raw
    cases hfd : findDollar raw with
    | none => simp [parseSingleResult, hfd]
    | some se =>
      obtain ⟨s, e⟩ := se
      simp [parseSingleResult, hfd]
  · intro loc hrefv raw h
    cases hfd : findDollar raw with
    | none => simp [parseSingleResult, hfd]
    | some se =>
      obtain ⟨s, e⟩ := se
      simp [parseSingleResult, hfd]

/-- A detail page carrying nothing but attribute groups. -/
def mkAttrsDoc (gs : List (List SpanM)) : DetailDoc :=
  { titleTextOnly := none, postingTitleText := none, docTitle := none,
    priceText := none, bodyTextNoQR := none, attrGroups := gs,
    mapAddress := none, mapEl := none, timeEl := none, imgEls := [],
    thumbsAnchors := none }

/-- C3: the label/value pairing pass.  The claimed fixture
`[labl:"condition", valu:"like new", valu(year):"2020"]` yields exactly
`{"condition": "like new", "year": "2020"}`; an empty attributes map is
reported as absent (`None`), not as an empty container; a label span
immediately followed by a value span records the lower-cased,
colon-stripped label against the value text, consuming both; a standalone
value span records under `"year"` / `"make/model"` when it carries that
marker class and otherwise records its own lower-cased text with value
`"yes"`. -/
theorem c3_attribute_pairing :
    collectAttrs [[⟨["labl"], "condition", "condition"⟩,
        ⟨["valu"], "like new", "like new"⟩,
        ⟨["valu", "year"], "2020", "2020"⟩]] =
      [("condition", "like new"), ("year", "2020")] ∧
    (∀ gs u, ∃ d, parseListingDetail (mkAttrsDoc gs) u = .ok d ∧
      (d.attributes = none ↔ collectAttrs gs = []) ∧
      d.attributes = (if collectAttrs gs = [] then none else some (collectAttrs gs))) ∧
    (∀ lt vt : String, pyLower (pyStrip (rstripColon lt)) ≠ "" → vt ≠ "" →
      pairSpansAux [⟨["labl"], lt, lt⟩, ⟨["valu"], vt, vt⟩] [] =
        [(pyLower (pyStrip (rstripColon lt)), vt)]) ∧
    (∀ vt : String, vt ≠ "" →
      pairSpansAux [⟨["valu", "year"], vt, vt⟩] [] = [("year", vt)]) ∧
    (∀ vt : String, vt ≠ "" →
      pairSpansAux [⟨["valu", "makemodel"], vt, vt⟩] [] = [("make/model", vt)]) ∧
    (∀ vt : String, vt ≠ "" →
      pairSpansAux [⟨["valu"], vt, vt⟩] [] = [(pyLower vt, "yes")]) := by
  refine ⟨by decide, ?_, ?_, ?_, ?_, ?_⟩
  · intro gs u
    refine ⟨_, rfl, ?_, ?_⟩ <;>
      by_cases hgs : collectAttrs gs = [] <;>
        simp [parseListingDetail, mkAttrsDoc, hgs]
  · intro lt vt hl hv
    simp [pairSpansAux, dinsert, hl, hv]
  · intro vt hv
    simp [pairSpansAux, dinsert, hv]
  · intro vt hv
    simp [pairSpansAux, dinsert, hv]
  · intro vt hv
    simp [pairSpansAux, dinsert, hv]

/-- Witness for `c3_attribute_pairing`: the hypothesis-bearing clauses
applied at concrete spans. -/
theorem c3_attribute_pairing_witness :
    pairSpansAux [⟨["labl"], "condition:", "condition:"⟩,
        ⟨["valu"], "like new", "like new"⟩] [] = [("condition", "like new")] ∧
    pairSpansAux [⟨["valu", "year"], "2020", "2020"⟩] [] = [("year", "2020")] ∧
    pairSpansAux [⟨["valu", "makemodel"], "Honda CB500", "Honda CB500"⟩] [] =
      [("make/model", "Honda CB500")] ∧
    pairSpansAux [⟨["valu"], "odometer broken", "odometer broken"⟩] [] =
      [("odometer broken", "yes")] := by
  obtain ⟨-, -, h3, h4, h5, h6⟩ := c3_attribute_pairing
  refine ⟨?_, h4 "2020" (by decide), h5 "Honda CB500" (by decide),
    ?_⟩
  · have := h3 "condition:" "like new" (by decide) (by decide)
    simpa using this
  · have := h6 "odometer broken" (by decide)
    simpa using this

/-- The geo side condition: whenever the `#map` element carries both
coordinate attributes truthily, both must be `float`-parseable. -/
def geoOk (doc : DetailDoc) : Prop :=
  ∀ m, doc.mapEl = some m → pyTruthy m.dataLatitude = true →
    pyTruthy m.dataLongitude = true →
    pyFloatParses (m.dataLatitude.getD "") = true ∧
      pyFloatParses (m.dataLongitude.getD "") = true

/-- A detail page whose `#map` element has a non-numeric latitude. -/
def docBadGeo : DetailDoc :=
  { titleTextOnly := none, postingTitleText := none, docTitle := none,
    priceText := none, bodyTextNoQR := none, attrGroups := [],
    mapAddress := none, mapEl := some ⟨some "abc", some "12.5"⟩,
    timeEl := none, imgEls := [], thumbsAnchors := none }

/-- C1 counterexample: the extractor is *not* raise-free.  When the map
element's latitude/longitude data attributes are both present but the
latitude is not numeric-parseable, `float(lat)` at scraper.py:890 raises
`ValueError`, which `get_listing_details` does not catch (its `try` only
wraps `_fetch_page`): the parse aborts instead of yielding an absent
field. -/
theorem c1_geo_counterexample :
    parseListingDetail docBadGeo "https://example.org/x" =
      .error "could not convert string to float: abc" := by rfl

/-- C1 (amended): on every document whose map element does not pair two
present-but-unparseable coordinate attributes (`geoOk`), the Detail
Extractor returns a record — every other field-level failure degrades to
an absent field — and the coordinate pair is set exactly when both
attributes are present (truthy) and parseable, never one without the
other. -/
theorem c1_detail_total_geo (doc : DetailDoc) (url : String) (h : geoOk doc) :
    ∃ d, parseListingDetail doc url = .ok d ∧
      (d.latitude.isSome = true ↔
        ∃ m, doc.mapEl = some m ∧ pyTruthy m.dataLatitude = true ∧
          pyTruthy m.dataLongitude = true) ∧
      d.latitude.isSome = d.longitude.isSome := by
  cases hm : doc.mapEl with
  | none =>
    have hok : ∃ d, parseListingDetail doc url = .ok d ∧
        d.latitude = none ∧ d.longitude = none := by
      simp only [parseListingDetail, hm]
      exact ⟨_, rfl, rfl, rfl⟩
    obtain ⟨d, hd, hl, hlo⟩ := hok
    refine ⟨d, hd, ?_, by rw [hl, hlo]⟩
    rw [hl]
    simp [hm]
  | some m =>
    by_cases hc : pyTruthy m.dataLatitude = true ∧ pyTruthy m.dataLongitude = true
    · obtain ⟨h1, h2⟩ := hc
      obtain ⟨hp1, hp2⟩ := h m hm h1 h2
      have hok : ∃ d, parseListingDetail doc url = .ok d ∧
          d.latitude = some (m.dataLatitude.getD "") ∧
          d.longitude = some (m.dataLongitude.getD "") := by
        simp only [parseListingDetail, hm]
        rw [if_pos ⟨h1, h2⟩, if_pos hp1, if_pos hp2]
        exact ⟨_, rfl, rfl, rfl⟩
      obtain ⟨d, hd, hl, hlo⟩ := hok
      refine ⟨d, hd, ?_, by rw [hl, hlo]; rfl⟩
      exact Iff.intro (fun _ => ⟨m, rfl, h1, h2⟩) (fun _ => by rw [hl]; rfl)
    · have hok : ∃ d, parseListingDetail doc url = .ok d ∧
          d.latitude = none ∧ d.longitude = none := by
        simp only [parseListingDetail, hm]
        rw [if_neg hc]
        exact ⟨_, rfl, rfl, rfl⟩
      obtain ⟨d, hd, hl, hlo⟩ := hok
      refine ⟨d, hd, ?_, by rw [hl, hlo]⟩
      rw [hl]
      simp only [Option.isSome_none, Bool.false_eq_true, false_iff]
      rintro ⟨m2, hm2, hb1, hb2⟩
      cases hm2
      exact hc ⟨hb1, hb2⟩

/-- A detail page whose map element carries two parseable coordinates. -/
def docGoodGeo : DetailDoc :=
  { titleTextOnly := some "Nice bike", postingTitleText := none,
    docTitle := none, priceText := some "$150", bodyTextNoQR := none,
    attrGroups := [], mapAddress := none,
    mapEl := some ⟨some "40.7", some "-73.98"⟩,
    timeEl := none, imgEls := [], thumbsAnchors := none }

/-- Witness for `c1_detail_total_geo` at a concrete document. -/
theorem c1_detail_total_geo_witness :
    ∃ d, parseListingDetail docGoodGeo "https://example.org/y" = .ok d ∧
      d.latitude.isSome = true := by
  obtain ⟨d, hd, hiff, -⟩ :=
    c1_detail_total_geo docGoodGeo "https://example.org/y"
      (by
        intro m hm h1 h2
        have hmeq : m = ⟨some "40.7", some "-73.98"⟩ := by
          cases hm
          rfl
        subst hmeq
        exact ⟨by decide, by decide⟩)
  refine ⟨d, hd, ?_⟩
  exact hiff.mpr ⟨_, rfl, by decide, by decide⟩

/-! ## Behaviour of the accumulation loop -/

theorem searchLoop_halt (fetch : String → Except FetchErr SearchDoc)
    (loc cat : String) (q : Option String) (mi ma : Option Int)
    (so : Option String) (hi pt bd : Bool) (sd : Option Int)
    (pc : Option String) (mr : Int) (acc : List Listing) (off : Int)
    (h : ¬ ((acc.length : Int) < mr)) :
    searchLoop fetch loc cat q mi ma so hi pt bd sd pc mr acc off =
      .finished acc := by
  rw [searchLoop]
  simp [h]

theorem searchLoop_fetch_error (fetch : String → Except FetchErr SearchDoc)
    (loc cat : String) (q : Option String) (mi ma : Option Int)
    (so : Option String) (hi pt bd : Bool) (sd : Option Int)
    (pc : Option String) (mr : Int) (acc : List Listing) (off : Int)
    (e : FetchErr) (h : (acc.length : Int) < mr)
    (he : fetch (buildSearchUrl loc cat q mi ma so hi pt bd sd pc off) = .error e) :
    searchLoop fetch loc cat q mi ma so hi pt bd sd pc mr acc off =
      .failed (fetchErrPayload e (buildSearchUrl loc cat q mi ma so hi pt bd sd pc off)) := by
  rw [searchLoop]
  simp [h, he]

theorem searchLoop_page_empty (fetch : String → Except FetchErr SearchDoc)
    (loc cat : String) (q : Option String) (mi ma : Option Int)
    (so : Option String) (hi pt bd : Bool) (sd : Option Int)
    (pc : Option String) (mr : Int) (acc : List Listing) (off : Int)
    (doc : SearchDoc) (h : (acc.length : Int) < mr)
    (hd : fetch (buildSearchUrl loc cat q mi ma so hi pt bd sd pc off) = .ok doc)
    (hp : parseSearchResults doc loc = []) :
    searchLoop fetch loc cat q mi ma so hi pt bd sd pc mr acc off =
      .finished acc := by
  rw [searchLoop]
  simp [h, hd, hp]

theorem searchLoop_page_short (fetch : String → Except FetchErr SearchDoc)
    (loc cat : String) (q : Option String) (mi ma : Option Int)
    (so : Option String) (hi pt bd : Bool) (sd : Option Int)
    (pc : Option String) (mr : Int) (acc : List Listing) (off : Int)
    (doc : SearchDoc) (h : (acc.length : Int) < mr)
    (hd : fetch (buildSearchUrl loc cat q mi ma so hi pt bd sd pc off) = .ok doc)
    (hp : parseSearchResults doc loc ≠ [])
    (hs : (parseSearchResults doc loc).length < 20) :
    searchLoop fetch loc cat q mi ma so hi pt bd sd pc mr acc off =
      .finished (acc ++ parseSearchResults doc loc) := by
  rw [searchLoop]
  simp [h, hd, hp, hs]

theorem searchLoop_page_advance (fetch : String → Except FetchErr SearchDoc)
    (loc cat : String) (q : Option String) (mi ma : Option Int)
    (so : Option String) (hi pt bd : Bool) (sd : Option Int)
    (pc : Option String) (mr : Int) (acc : List Listing) (off : Int)
    (doc : SearchDoc) (h : (acc.length : Int) < mr)
    (hd : fetch (buildSearchUrl loc cat q mi ma so hi pt bd sd pc off) = .ok doc)
    (hp : parseSearchResults doc loc ≠ [])
    (hs : ¬ (parseSearchResults doc loc).length < 20) :
    searchLoop fetch loc cat q mi ma so hi pt bd sd pc mr acc off =
      searchLoop fetch loc cat q mi ma so hi pt bd sd pc mr
        (acc ++ parseSearchResults doc loc)
        (off + (parseSearchResults doc loc).length) := by
  conv_lhs => rw [searchLoop]
  simp [h, hd, hp, hs]

/-- C7: a fetch failure anywhere in the accumulation loop aborts the
whole call — whatever had been accumulated (`acc` is universally
quantified and does not appear in the result), the loop returns the
error payload built from the failure and the failing URL, whose `url`
field carries that URL and whose message carries the status code and
reason in the HTTP case (or the exception text in the transport case). -/
theorem c7_fetch_failure_aborts (fetch : String → Except FetchErr SearchDoc)
    (loc cat : String) (q : Option String) (mi ma : Option Int)
    (so : Option String) (hi pt bd : Bool) (sd : Option Int)
    (pc : Option String) (mr : Int) (acc : List Listing) (off : Int)
    (e : FetchErr) (h : (acc.length : Int) < mr)
    (he : fetch (buildSearchUrl loc cat q mi ma so hi pt bd sd pc off) = .error e) :
    searchLoop fetch loc cat q mi ma so hi pt bd sd pc mr acc off =
      .failed (fetchErrPayload e
        (buildSearchUrl loc cat q mi ma so hi pt bd sd pc off)) ∧
    (fetchErrPayload e (buildSearchUrl loc cat q mi ma so hi pt bd sd pc off)).url =
      some (buildSearchUrl loc cat q mi ma so hi pt bd sd pc off) ∧
    (∀ code reason u, fetchErrPayload (.httpStatus code reason) u =
      { error := "HTTP error " ++ toString code ++ ": " ++ reason,
        url := some u, suggestion := none }) ∧
    (∀ msg u, fetchErrPayload (.request msg) u =
      { error := "Request failed: " ++ msg, url := some u, suggestion := none }) ∧
    (∀ q2 l2 c2 so2 err,
      resolveLocation l2 = .ok loc → resolveCategory c2 = .ok cat →
      searchLoop fetch loc cat (some q2) mi ma (some so2) hi pt bd sd pc mr [] 0 =
        .failed err →
      searchListings fetch q2 l2 c2 mi ma so2 hi pt bd sd pc mr = .failure err) := by
  refine ⟨searchLoop_fetch_error fetch loc cat q mi ma so hi pt bd sd pc mr acc off e h he,
    ?_, fun code reason u => rfl, fun msg u => rfl, ?_⟩
  · cases e <;> rfl
  · intro q2 l2 c2 so2 err hl hc hloop
    simp [searchListings, hl, hc, hloop]

/-- Witness for `c7_fetch_failure_aborts`: a concrete fetch that fails
with HTTP 403 aborts a loop that already accumulated one listing. -/
theorem c7_fetch_failure_aborts_witness :
    searchLoop (fun _ => .error (.httpStatus 403 "Forbidden")) "newyork" "sss"
        (some "couch") none none (some "relevant") false false true none none 25
        [{ url := "u", title := "t", price := none, neighborhood := none,
           date := none, thumbnail := none }] 24 =
      .failed
        { error := "HTTP error 403: Forbidden",
          url := some (buildSearchUrl "newyork" "sss" (some "couch") none none
            (some "relevant") false false true none none 24),
          suggestion := none } := by
  have h := c7_fetch_failure_aborts (fun _ => .error (.httpStatus 403 "Forbidden"))
    "newyork" "sss" (some "couch") none none (some "relevant") false false true
    none none 25
    [{ url := "u", title := "t", price := none, neighborhood := none,
       date := none, thumbnail := none }] 24
    (.httpStatus 403 "Forbidden") (by decide) rfl
  rw [h.1]
  rfl

/-- C10: with a valid location and category and `max_results ≤ 0`, the
loop body never runs — the outcome is the same success envelope for
*every* fetch function, so no page fetch is observable — carrying zero
results, `result_count = 0`, and the offset-0 search URL. -/
theorem c10_nonpositive_max (fetch : String → Except FetchErr SearchDoc)
    (q l c : String) (mi ma : Option Int) (so : String) (hi pt bd : Bool)
    (sd : Option Int) (pc : Option String) (mr : Int) (loc cat : String)
    (hm : mr ≤ 0) (hl : resolveLocation l = .ok loc)
    (hc : resolveCategory c = .ok cat) :
    searchListings fetch q l c mi ma so hi pt bd sd pc mr =
      .success
        { query := q, location := loc,
          locationName := (alookup LOCATIONS loc).getD loc,
          category := cat, categoryName := (alookup CATEGORIES cat).getD cat,
          url := buildSearchUrl loc cat (some q) mi ma (some so) hi pt bd sd pc 0,
          resultCount := 0, results := [] } := by
  have hloop := searchLoop_halt fetch loc cat (some q) mi ma (some so) hi pt bd
    sd pc mr [] 0 (by simp; omega)
  simp [searchListings, hl, hc, hloop, pySlice]

/-- Witness for `c10_nonpositive_max`: `max_results = 0` with a fetch
that would always fail still succeeds with an empty result list. -/
theorem c10_nonpositive_max_witness :
    searchListings (fun _ => .error (.request "connection refused")) "couch"
        "newyork" "sss" none none "relevant" false false true none none 0 =
      .success
        { query := "couch", location := "newyork",
          locationName := "New York City, NY", category := "sss",
          categoryName := "All For Sale",
          url := "https://newyork.craigslist.org/search/sss?query=couch&sort=relevant&bundleDuplicates=1",
          resultCount := 0, results := [] } := by
  have h := c10_nonpositive_max (fun _ => .error (.request "connection refused"))
    "couch" "newyork" "sss" none none "relevant" false false true none none 0
    "newyork" "sss" (by decide) (by rfl) (by rfl)
  rw [h]
  rfl

/-! ## C8 fixtures: a page of 8 parseable result nodes -/

def itemNode : NodeM :=
  { titleEl := some ⟨some "/abc/d/comfy-couch/1000000001.html", "Comfy Couch $100"⟩,
    titleDiv := some "Comfy Couch", priceEl := some "$100", hoodEl := none,
    dateEl := none, imgEl := none }

def itemL : Listing :=
  { url := "https://newyork.craigslist.org/abc/d/comfy-couch/1000000001.html",
    title := "Comfy Couch", price := some "$100", neighborhood := none,
    date := none, thumbnail := none }

def doc8 : SearchDoc :=
  { staticResults := List.replicate 8 itemNode, resultRows := [],
    clSearchResults := [], resultInfos := [], anchors := [] }

def fetch8 : String → Except FetchErr SearchDoc := fun _ => .ok doc8

def envC8 : SearchEnvelope :=
  { query := "couch", location := "newyork",
    locationName := "New York City, NY", category := "sss",
    categoryName := "All For Sale",
    url := "https://newyork.craigslist.org/search/sss?query=couch&sort=relevant&bundleDuplicates=1",
    resultCount := 5, results := List.replicate 5 itemL }

def doc20 : SearchDoc :=
  { staticResults := List.replicate 20 itemNode, resultRows := [],
    clSearchResults := [], resultInfos := [], anchors := [] }

def fetch20 : String → Except FetchErr SearchDoc := fun _ => .ok doc20

def docNoNodes : SearchDoc :=
  { staticResults := [], resultRows := [], clSearchResults := [],
    resultInfos := [], anchors := [] }

def fetchNoNodes : String → Except FetchErr SearchDoc := fun _ => .ok docNoNodes

theorem pySlice_length_le (m : Int) (l : List Listing) (hm : 0 ≤ m) :
    ((pySlice m l).length : Int) ≤ m := by
  simp only [pySlice, if_pos hm, List.length_take]
  omega

/-- C8: on success `search_listings` truncates to the requested
`max_results`, reports `result_count` equal to the length of the returned
list, and displays the recomputed offset-0 URL; the concrete
8-parseable-node page with `max_results = 5` yields exactly 5 summaries
with `location_name = "New York City, NY"`.  The loop advances the offset
by the number of results just extracted and terminates on an empty page,
on a short (< 20) page, or when the accumulated count reaches the
target. -/
theorem c8_success_envelope :
    searchListings fetch8 "couch" "newyork" "sss" none none "relevant" false
        false true none none 5 = .success envC8 ∧
    (∀ fetch q l c mi ma so hi pt bd sd pc mr env,
      searchListings fetch q l c mi ma so hi pt bd sd pc mr = .success env →
        env.resultCount = env.results.length ∧
        (0 ≤ mr → (env.results.length : Int) ≤ mr)) ∧
    (∀ fetch q l c mi ma so hi pt bd sd pc mr env loc cat,
      resolveLocation l = .ok loc → resolveCategory c = .ok cat →
      searchListings fetch q l c mi ma so hi pt bd sd pc mr = .success env →
        env.url = buildSearchUrl loc cat (some q) mi ma (some so) hi pt bd sd pc 0) ∧
    (∀ fetch loc cat q mi ma so hi pt bd sd pc mr acc off doc,
      (acc.length : Int) < mr →
      fetch (buildSearchUrl loc cat q mi ma so hi pt bd sd pc off) = .ok doc →
      parseSearchResults doc loc ≠ [] →
      ¬ (parseSearchResults doc loc).length < 20 →
      searchLoop fetch loc cat q mi ma so hi pt bd sd pc mr acc off =
        searchLoop fetch loc cat q mi ma so hi pt bd sd pc mr
          (acc ++ parseSearchResults doc loc)
          (off + (parseSearchResults doc loc).length)) ∧
    (∀ fetch loc cat q mi ma so hi pt bd sd pc mr acc off doc,
      (acc.length : Int) < mr →
      fetch (buildSearchUrl loc cat q mi ma so hi pt bd sd pc off) = .ok doc →
      parseSearchResults doc loc ≠ [] →
      (parseSearchResults doc loc).length < 20 →
      searchLoop fetch loc cat q mi ma so hi pt bd sd pc mr acc off =
        .finished (acc ++ parseSearchResults doc loc)) ∧
    (∀ fetch loc cat q mi ma so hi pt bd sd pc mr acc off doc,
      (acc.length : Int) < mr →
      fetch (buildSearchUrl loc cat q mi ma so hi pt bd sd pc off) = .ok doc →
      parseSearchResults doc loc = [] →
      searchLoop fetch loc cat q mi ma so hi pt bd sd pc mr acc off =
        .finished acc) := by
  refine ⟨?_, ?_, ?_, searchLoop_page_advance, searchLoop_page_short,
    searchLoop_page_empty⟩
  · have hl : resolveLocation "newyork" = .ok "newyork" := by rfl
    have hc : resolveCategory "sss" = .ok "sss" := by rfl
    have hshort := searchLoop_page_short fetch8 "newyork" "sss" (some "couch")
      none none (some "relevant") false false true none none 5 [] 0 doc8
      (by decide) rfl (by decide) (by decide)
    simp only [searchListings, hl, hc, hshort]
    decide
  · intro fetch q l c mi ma so hi pt bd sd pc mr env hsucc
    cases hl : resolveLocation l with
    | error e => simp [searchListings, hl] at hsucc
    | ok loc =>
      cases hc : resolveCategory c with
      | error e => simp [searchListings, hl, hc] at hsucc
      | ok cat =>
        cases hloop : searchLoop fetch loc cat (some q) mi ma (some so) hi pt bd
            sd pc mr [] 0 with
        | failed err => simp [searchListings, hl, hc, hloop] at hsucc
        | finished allR =>
          simp only [searchListings, hl, hc, hloop] at hsucc
          rw [SearchOut.success.injEq] at hsucc
          rw [← hsucc]
          exact ⟨rfl, fun hm => pySlice_length_le mr allR hm⟩
  · intro fetch q l c mi ma so hi pt bd sd pc mr env loc cat hl hc hsucc
    cases hloop : searchLoop fetch loc cat (some q) mi ma (some so) hi pt bd
        sd pc mr [] 0 with
    | failed err => simp [searchListings, hl, hc, hloop] at hsucc
    | finished allR =>
      simp only [searchListings, hl, hc, hloop] at hsucc
      rw [SearchOut.success.injEq] at hsucc
      rw [← hsucc]

/-- Witness for `c8_success_envelope`: its conditional clauses applied to
the concrete fixtures (8-node page, 20-node page, empty page). -/
theorem c8_success_envelope_witness :
    envC8.resultCount = envC8.results.length ∧
    (envC8.results.length : Int) ≤ 5 ∧
    envC8.url = buildSearchUrl "newyork" "sss" (some "couch") none none
      (some "relevant") false false true none none 0 ∧
    searchLoop fetch20 "newyork" "sss" (some "couch") none none
        (some "relevant") false false true none none 25 [] 0 =
      searchLoop fetch20 "newyork" "sss" (some "couch") none none
        (some "relevant") false false true none none 25
        ([] ++ parseSearchResults doc20 "newyork")
        (0 + (parseSearchResults doc20 "newyork").length) ∧
    searchLoop fetch8 "newyork" "sss" (some "couch") none none
        (some "relevant") false false true none none 25 [] 0 =
      .finished ([] ++ parseSearchResults doc8 "newyork") ∧
    searchLoop fetchNoNodes "newyork" "sss" (some "couch") none none
        (some "relevant") false false true none none 25 [] 0 =
      .finished [] := by
  obtain ⟨h1, h2, h3, h4, h5, h6⟩ := c8_success_envelope
  have he := h2 fetch8 "couch" "newyork" "sss" none none "relevant" false false
    true none none 5 envC8 h1
  refine ⟨he.1, he.2 (by decide), ?_, ?_, ?_, ?_⟩
  · exact h3 fetch8 "couch" "newyork" "sss" none none "relevant" false false
      true none none 5 envC8 "newyork" "sss" rfl rfl h1
  · exact h4 fetch20 "newyork" "sss" (some "couch") none none (some "relevant")
      false false true none none 25 [] 0 doc20 (by decide) rfl (by decide)
      (by decide)
  · exact h5 fetch8 "newyork" "sss" (some "couch") none none (some "relevant")
      false false true none none 25 [] 0 doc8 (by decide) rfl (by decide)
      (by decide)
  · exact h6 fetchNoNodes "newyork" "sss" (some "couch") none none
      (some "relevant") false false true none none 25 [] 0 docNoNodes
      (by decide) rfl (by decide)

/-! ## C4 fixtures and lemmas: the link-pattern fallback -/

/-- Anchors exercising the fallback: a matching anchor with a price in
its parent, a duplicate of its URL, a too-short title, a non-matching
href, a missing href, and an already-absolute matching URL. -/
def fbAnchors : List FAnchor :=
  [ { href := some "/abc/d/mountain-bike/123.html", text := "Mountain Bike",
      parentText := some "Mountain Bike $150 cheap" },
    { href := some "/abc/d/mountain-bike/123.html", text := "Mountain Bike again",
      parentText := none },
    { href := some "/xyz/d/tv/99.html", text := "ab", parentText := some "tv $40" },
    { href := some "/ab/d/x/99.html", text := "A bad pattern", parentText := none },
    { href := none, text := "no href at all", parentText := none },
    { href := some "https://newyork.craigslist.org/abc/d/couch/777.html",
      text := "Nice Couch", parentText := none } ]

/-- A search page with no structurally recognizable nodes. -/
def docC4 : SearchDoc :=
  { staticResults := [], resultRows := [], clSearchResults := [],
    resultInfos := [], anchors := fbAnchors }

/-- A cascade node with no anchor at all: `_parse_single_result`
returns `None` and the node is discarded. -/
def discardNode : NodeM :=
  { titleEl := none, titleDiv := some "orphan", priceEl := none,
    hoodEl := none, dateEl := none, imgEl := none }

/-- A search page whose only cascade node is discarded (no anchor). -/
def docC4b : SearchDoc :=
  { staticResults := [discardNode], resultRows := [], clSearchResults := [],
    resultInfos := [], anchors := fbAnchors }

/-- The first record the fallback recovers from `fbAnchors`. -/
def fbRecA : Listing :=
  { url := "https://newyork.craigslist.org/abc/d/mountain-bike/123.html",
    title := "Mountain Bike", price := some "$150", neighborhood := none,
    date := none, thumbnail := none }

/-- The second record the fallback recovers from `fbAnchors`. -/
def fbRecB : Listing :=
  { url := "https://newyork.craigslist.org/abc/d/couch/777.html",
    title := "Nice Couch", price := none, neighborhood := none,
    date := none, thumbnail := none }

theorem mem_append_single {r rec : Listing} {res : List Listing}
    (hr : r ∈ res ++ [rec]) : r ∈ res ∨ r = rec := by
  simpa using List.mem_append.mp hr

theorem fallbackStep_mem (loc : String) (st : List String × List Listing)
    (a : FAnchor) (r : Listing) (hr : r ∈ (fallbackStep loc st a).2) :
    r ∈ st.2 ∨ (r.neighborhood = none ∧ r.date = none ∧ r.thumbnail = none) := by
  rcases st with ⟨seen, res⟩
  simp only [fallbackStep] at hr
  repeat' split at hr
  all_goals try exact Or.inl hr
  all_goals rcases mem_append_single hr with hmem | hmem
  all_goals try exact Or.inl hmem
  all_goals rw [hmem]
  all_goals exact Or.inr ⟨rfl, rfl, rfl⟩

theorem fallbackFold_mem (loc : String) (anchors : List FAnchor) :
    ∀ st r, r ∈ (anchors.foldl (fallbackStep loc) st).2 →
      r ∈ st.2 ∨ (r.neighborhood = none ∧ r.date = none ∧ r.thumbnail = none) := by
  induction anchors with
  | nil => exact fun st r hr => Or.inl hr
  | cons a t ih =>
    intro st r hr
    rw [List.foldl_cons] at hr
    rcases ih (fallbackStep loc st a) r hr with h | h
    · exact fallbackStep_mem loc st a r h
    · exact Or.inr h

/-- C4: when the four-strategy cascade yields zero usable records, the
extractor returns the link-pattern fallback, whose records carry only
title, url and an optional price recovered from the parent's text —
neighborhood, date and thumbnail are always absent — with anchors
filtered by the `/xxx/d/slug/digits.html` pattern, candidates with short
or empty visible text discarded, and URLs deduplicated in document order
with the first occurrence winning.  Both trigger shapes are exercised:
an empty cascade and a cascade whose only node is discarded. -/
theorem c4_link_pattern_fallback :
    (∀ doc loc, (cascadeNodes doc).filterMap (fun it => parseSingleResult it loc) = [] →
      parseSearchResults doc loc = parseResultsFallback doc.anchors loc) ∧
    (∀ anchors loc r, r ∈ parseResultsFallback anchors loc →
      r.neighborhood = none ∧ r.date = none ∧ r.thumbnail = none) ∧
    parseSearchResults docC4 "newyork" = [fbRecA, fbRecB] ∧
    parseSearchResults docC4b "newyork" = [fbRecA, fbRecB] := by
  refine ⟨?_, ?_, by decide, by decide⟩
  · intro doc loc h
    simp [parseSearchResults, h]
  · intro anchors loc r hr
    rcases fallbackFold_mem loc anchors ([], []) r hr with h | h
    · exact absurd h (List.not_mem_nil r)
    · exact h

/-- Witness for `c4_link_pattern_fallback`: the trigger clause at the
empty-cascade fixture and the absent-field clause at a concrete fallback
record. -/
theorem c4_link_pattern_fallback_witness :
    parseSearchResults docC4 "newyork" =
      parseResultsFallback docC4.anchors "newyork" ∧
    (fbRecA.neighborhood = none ∧ fbRecA.date = none ∧ fbRecA.thumbnail = none) := by
  obtain ⟨h1, h2, -, -⟩ := c4_link_pattern_fallback
  exact ⟨h1 docC4 "newyork" (by decide),
    h2 fbAnchors "newyork" fbRecA (by decide)⟩

end Craigslist
